import Mathlib

/-!
# Fleet maintenance application: session store, route guards, tenant-scoped pages

A shallow embedding of the client-side logic of the application.

* `AuthState` is the state held by `AuthProvider` (`src/contexts/AuthContext.jsx`):
  the five `useState` cells and the two `useRef` cells.
* Every asynchronous operation is a function of the state at the call and of the
  replies of the remote client; it returns the state after the operation, the
  list of remote calls it issued (in order) and whether its promise resolved or
  rejected.  The segments between two `await`s are separate definitions
  (`loginBegin`, `loginSettle`, ...), the whole operation is their composition.
* A remote reply is the `{ data, error }` object the client resolves with, or an
  exception (a rejected promise).
-/

namespace FleetApp

/-! ## Values exchanged with the remote client -/

/-- Error object: an error reported by the remote client or a thrown JavaScript
`Error`, with its `code` and `message`. -/
structure Err where
  code : String
  message : String
deriving DecidableEq, Repr

/-- Authenticated identity (`session.user`). -/
structure User where
  id : Nat
  email : String
deriving DecidableEq, Repr

/-- Session object of the remote auth client; the code reads `session?.user`. -/
structure Session where
  user : Option User
deriving DecidableEq, Repr

/-- Payload `data` of `signUp` and `signInWithPassword`. -/
structure AuthData where
  user : Option User
  session : Option Session
deriving DecidableEq, Repr

/-- Row of the `companies` table. -/
structure Company where
  id : Nat
  name : String
  address : String
  city : String
  state : String
  zip : String
  phone : String
  email : String
  user_id : Nat
deriving DecidableEq, Repr

/-- Row of the `trucks` table. -/
structure Truck where
  id : Nat
  company_id : Nat
  vin : String
  license_plate : String
  year : Nat
  make : String
  model : String
  current_mileage : Nat
  notes : String
deriving DecidableEq, Repr

/-- Row of the `maintenance_records` table. -/
structure MaintenanceRecord where
  id : Nat
  company_id : Nat
  truck_id : Nat
  maintenance_type : String
  performed_at : String
  mileage : Nat
  next_due_mileage : Option Nat
  part_make_model : String
  notes : String
deriving DecidableEq, Repr

/-- What an awaited remote call yields: `ok data` is `{ data, error: null }`,
`failed e` is `{ data: null, error: e }` (a reported error), `threw e` is a
rejected promise. -/
inductive Reply (α : Type) where
  | ok (data : α)
  | failed (error : Err)
  | threw (error : Err)
deriving DecidableEq, Repr

/-! ## Table requests -/

/-- Remote tables the application reads and writes. -/
inductive Table where
  | trucks
  | maintenance_records
  | companies
deriving DecidableEq, Repr

/-- Columns used in filters and written rows. -/
inductive Column where
  | id
  | company_id
  | truck_id
  | user_id
  | email
  | name
  | address
  | phone
  | current_mileage
  | maintenance_type
  | performed_at
  | mileage
  | next_due_mileage
  | part_make_model
  | notes
deriving DecidableEq, Repr

/-- Cell value of a filter or of a written row. -/
inductive Val where
  | num (n : Nat)
  | str (s : String)
  | null
deriving DecidableEq, Repr

/-- Verb of a table request. -/
inductive Verb where
  | select (columns : String)
  | insert (row : List (Column × Val))
  | update (changes : List (Column × Val))
  | delete
deriving DecidableEq, Repr

/-- Direction of an `.order(column, ...)` modifier: the column and `ascending`. -/
structure Order where
  column : String
  ascending : Bool
deriving DecidableEq, Repr

/-- Request built by `supabase.from(table).<verb>(...).eq(...)...`: the `.eq`
filters in call order and the `.single()`, `.order(...)`, `.limit(n)` modifiers. -/
structure Query where
  table : Table
  verb : Verb
  filters : List (Column × Val)
  single : Bool
  order : Option Order
  limit : Option Nat
deriving DecidableEq, Repr

/-- Call made on the remote client, as recorded in the order of issue. -/
inductive RemoteCall where
  | getSession
  | signInWithPassword (email password : String)
  | signUp (email password : String)
  | signOut
  | table (q : Query)
deriving DecidableEq, Repr

/-! ## Session store (`AuthProvider`) -/

/-- State of `AuthProvider`: the `useState` cells `user`, `company`, `loading`,
`initializing`, `error` and the refs `isMounted`, `initAttempted`. -/
structure AuthState where
  user : Option User
  company : Option Company
  loading : Bool
  initializing : Bool
  error : Option Err
  isMounted : Bool
  initAttempted : Bool
deriving DecidableEq, Repr

/-- Initial values of the hooks of `AuthProvider`. -/
def AuthState.initial : AuthState :=
  { user := none, company := none, loading := false, initializing := true,
    error := none, isMounted := true, initAttempted := false }

/-- Guarded setter `safeSetUser`. -/
def safeSetUser (s : AuthState) (data : Option User) : AuthState :=
  if s.isMounted then { s with user := data } else s

/-- Guarded setter `safeSetCompany`. -/
def safeSetCompany (s : AuthState) (data : Option Company) : AuthState :=
  if s.isMounted then { s with company := data } else s

/-- Guarded setter `safeSetLoading`. -/
def safeSetLoading (s : AuthState) (data : Bool) : AuthState :=
  if s.isMounted then { s with loading := data } else s

/-- Guarded setter `safeSetInitializing`. -/
def safeSetInitializing (s : AuthState) (data : Bool) : AuthState :=
  if s.isMounted then { s with initializing := data } else s

/-- Guarded setter `safeSetError`. -/
def safeSetError (s : AuthState) (data : Option Err) : AuthState :=
  if s.isMounted then { s with error := data } else s

/-- Snapshot handed to consumers through the context (`value`), without the
operations: `loading` is `loading || initializing`. -/
structure AuthValue where
  user : Option User
  company : Option Company
  loading : Bool
  error : Option Err
deriving DecidableEq, Repr

/-- Context value built by `AuthProvider` from its state. -/
def AuthState.value (s : AuthState) : AuthValue :=
  { user := s.user, company := s.company, loading := s.loading || s.initializing,
    error := s.error }

/-! ## Route guards (`App.jsx`) -/

/-- What a route guard returns: the loading placeholder, a redirect, or its
children. -/
inductive Rendered where
  | loadingFallback (message : String)
  | navigate (target : String)
  | children
deriving DecidableEq, Repr

/-- Guard `ProtectedRoute`. -/
def ProtectedRoute (ctx : AuthValue) : Rendered :=
  if ctx.loading then .loadingFallback "Checking authentication..."
  else if ctx.user.isNone then .navigate "/login"
  else .children

/-- Guard `PublicRoute`. -/
def PublicRoute (ctx : AuthValue) : Rendered :=
  if ctx.loading then .loadingFallback "Checking authentication..."
  else if ctx.user.isSome then .navigate "/"
  else .children

/-! ## `login` -/

/-- Exit of a `try / catch / finally` operation of the store: on rejection the
`catch` block records the error, then `finally` clears `loading`. -/
def settle {α : Type} (s : AuthState) (calls : List RemoteCall) (res : Except Err α) :
    AuthState × List RemoteCall × Except Err α :=
  match res with
  | .ok a => (safeSetLoading s false, calls, .ok a)
  | .error e => (safeSetLoading (safeSetError s (some e)) false, calls, .error e)

/-- First segment of `login`, up to the awaited sign-in. -/
def loginBegin (s : AuthState) : AuthState :=
  safeSetError (safeSetLoading s true) none

/-- Second segment of `login`, from the reply of the sign-in to the end. -/
def loginSettle (s : AuthState) (calls : List RemoteCall) (r : Reply AuthData) :
    AuthState × List RemoteCall × Except Err AuthData :=
  match r with
  | .ok data => settle s calls (.ok data)
  | .failed e => settle s calls (.error e)
  | .threw e => settle s calls (.error e)

/-- Operation `login(email, password)` run without interleaving. -/
def login (s : AuthState) (email password : String) (r : Reply AuthData) :
    AuthState × List RemoteCall × Except Err AuthData :=
  loginSettle (loginBegin s) [.signInWithPassword email password] r

/-! ## `register` -/

/-- Duplicate-email lookup of `register`:
`from('companies').select('email').eq('email', email).limit(1)`. -/
def emailLookupQuery (email : String) : Query :=
  { table := .companies, verb := .select "email", filters := [(.email, .str email)],
    single := false, order := none, limit := some 1 }

/-- Company row written by `register`: `name`, `user_id`, `address`, `phone`,
`email`. -/
def companyInsertQuery (companyName : String) (user_id : Nat)
    (address phone email : String) : Query :=
  { table := .companies,
    verb := .insert [(.name, .str companyName), (.user_id, .num user_id),
      (.address, .str address), (.phone, .str phone), (.email, .str email)],
    filters := [], single := false, order := none, limit := none }

/-- Thrown `new Error('An account with this email already exists')`; a plain
`Error` has no code. -/
def duplicateEmailError : Err :=
  { code := "", message := "An account with this email already exists" }

/-- Thrown `new Error('User registration failed')`. -/
def registrationFailedError : Err :=
  { code := "", message := "User registration failed" }

/-- Replies of the four remote steps of `register`; a reply is read only when
its step is reached.  The lookup data is `null` or a list of `email` cells. -/
structure RegisterReplies where
  check : Reply (Option (List String))
  signUp : Reply AuthData
  insert : Reply Unit
  signOut : Reply Unit
deriving DecidableEq, Repr

/-- First segment of `register`, up to the awaited lookup. -/
def registerBegin (s : AuthState) : AuthState :=
  safeSetError (safeSetLoading s true) none

/-- Segment of `register` from the reply of `signOut` to the end: the reply
object is discarded, only an exception leaves the `try` block. -/
def registerAfterSignOut (s : AuthState) (calls : List RemoteCall) (data : AuthData)
    (r : Reply Unit) : AuthState × List RemoteCall × Except Err AuthData :=
  match r with
  | .threw e => settle s calls (.error e)
  | .ok _ => settle s calls (.ok data)
  | .failed _ => settle s calls (.ok data)

/-- Segment of `register` from the reply of the company insert on. -/
def registerAfterInsert (s : AuthState) (calls : List RemoteCall) (data : AuthData)
    (r : RegisterReplies) : AuthState × List RemoteCall × Except Err AuthData :=
  match r.insert with
  | .threw e => settle s calls (.error e)
  | .failed e => settle s calls (.error e)
  | .ok _ => registerAfterSignOut s (calls ++ [.signOut]) data r.signOut

/-- Segment of `register` from the reply of `signUp` on. -/
def registerAfterSignUp (s : AuthState) (calls : List RemoteCall)
    (email companyName address phone : String) (r : RegisterReplies) :
    AuthState × List RemoteCall × Except Err AuthData :=
  match r.signUp with
  | .threw e => settle s calls (.error e)
  | .failed e => settle s calls (.error e)
  | .ok data =>
    match data.user with
    | none => settle s calls (.error registrationFailedError)
    | some u =>
      registerAfterInsert s
        (calls ++ [.table (companyInsertQuery companyName u.id address phone email)]) data r

/-- Segment of `register` from the reply of the duplicate-email lookup on: a
reported lookup error is logged and registration proceeds. -/
def registerAfterCheck (s : AuthState) (calls : List RemoteCall)
    (email password companyName address phone : String) (r : RegisterReplies) :
    AuthState × List RemoteCall × Except Err AuthData :=
  match r.check with
  | .threw e => settle s calls (.error e)
  | .failed _ =>
    registerAfterSignUp s (calls ++ [.signUp email password]) email companyName address phone r
  | .ok existingUsers =>
    match existingUsers with
    | some rows =>
      if rows.length > 0 then settle s calls (.error duplicateEmailError)
      else
        registerAfterSignUp s (calls ++ [.signUp email password]) email companyName address
          phone r
    | none =>
      registerAfterSignUp s (calls ++ [.signUp email password]) email companyName address
        phone r

/-- Operation `register(email, password, companyName, address, phone)` run
without interleaving. -/
def register (s : AuthState) (email password companyName address phone : String)
    (r : RegisterReplies) : AuthState × List RemoteCall × Except Err AuthData :=
  registerAfterCheck (registerBegin s) [.table (emailLookupQuery email)] email password
    companyName address phone r

/-- Answer of a remote `companies` table with exact equality-filter semantics to
the duplicate-email lookup: the `email` cells of the rows whose email equals the
argument, at most one of them (`limit(1)`). -/
def lookupEmails (companies : List Company) (email : String) : List String :=
  ((companies.filter (fun c => c.email = email)).map (fun c => c.email)).take 1

/-! ## `logout` -/

/-- First segment of `logout`, up to the awaited sign-out. -/
def logoutBegin (s : AuthState) : AuthState :=
  safeSetLoading s true

/-- Second segment of `logout`, from the reply of the sign-out to the end. -/
def logoutSettle (s : AuthState) (calls : List RemoteCall) (r : Reply Unit) :
    AuthState × List RemoteCall × Except Err Unit :=
  match r with
  | .ok _ => settle (safeSetCompany (safeSetUser s none) none) calls (.ok ())
  | .failed e => settle s calls (.error e)
  | .threw e => settle s calls (.error e)

/-- Operation `logout()` run without interleaving. -/
def logout (s : AuthState) (r : Reply Unit) :
    AuthState × List RemoteCall × Except Err Unit :=
  logoutSettle (logoutBegin s) [.signOut] r

/-! ## Pages -/

/-- Filter value of the route parameter `id` (`undefined` when the route has
none). -/
def idVal : Option Nat → Val
  | some i => .num i
  | none => .null

/-- Request `from('trucks').select('*').eq('id', id).eq('company_id', company.id).single()`
of `TruckDetail` and `AddMaintenanceRecord`. -/
def truckByIdQuery (id : Nat) (company_id : Nat) : Query :=
  { table := .trucks, verb := .select "*",
    filters := [(.id, .num id), (.company_id, .num company_id)],
    single := true, order := none, limit := none }

/-! ### `TruckList` -/

/-- State of the `TruckList` page. -/
structure TruckListPage where
  trucks : List Truck
  loading : Bool
  error : String
  searchTerm : String
deriving DecidableEq, Repr

/-- Initial hook values of `TruckList`. -/
def TruckListPage.initial : TruckListPage :=
  { trucks := [], loading := true, error := "", searchTerm := "" }

/-- Request of `fetchTrucks`. -/
def truckListQuery (company_id : Nat) : Query :=
  { table := .trucks, verb := .select "*", filters := [(.company_id, .num company_id)],
    single := false, order := some { column := "created_at", ascending := false },
    limit := none }

/-- Effect `fetchTrucks` of `TruckList`; the reply data is `null` or the rows. -/
def fetchTrucks (company : Option Company) (r : Reply (Option (List Truck)))
    (p : TruckListPage) : TruckListPage × List RemoteCall :=
  match company with
  | none => (p, [])
  | some c =>
    let p1 := { p with loading := true, error := "" }
    let calls := [RemoteCall.table (truckListQuery c.id)]
    match r with
    | .ok data => ({ p1 with trucks := data.getD [], loading := false }, calls)
    | .failed _ =>
      ({ p1 with error := "Failed to load trucks. Please try again.", loading := false }, calls)
    | .threw _ =>
      ({ p1 with error := "Failed to load trucks. Please try again.", loading := false }, calls)

/-! ### `TruckDetail` -/

/-- State of the `TruckDetail` page. -/
structure TruckDetailPage where
  truck : Option Truck
  maintenanceRecords : List MaintenanceRecord
  loading : Bool
  error : String
  showQR : Bool
  showDeleteModal : Bool
deriving DecidableEq, Repr

/-- Initial hook values of `TruckDetail`. -/
def TruckDetailPage.initial : TruckDetailPage :=
  { truck := none, maintenanceRecords := [], loading := true, error := "",
    showQR := false, showDeleteModal := false }

/-- Maintenance-records request of `fetchTruckData`. -/
def truckRecordsQuery (id : Nat) (company_id : Nat) : Query :=
  { table := .maintenance_records, verb := .select "*",
    filters := [(.truck_id, .num id), (.company_id, .num company_id)],
    single := false, order := some { column := "performed_at", ascending := false },
    limit := none }

/-- Replies of the two requests of `fetchTruckData`. -/
structure TruckDetailReplies where
  truck : Reply Truck
  records : Reply (Option (List MaintenanceRecord))
deriving DecidableEq, Repr

/-- Effect `fetchTruckData` of `TruckDetail`. -/
def fetchTruckData (company : Option Company) (id : Option Nat) (r : TruckDetailReplies)
    (p : TruckDetailPage) : TruckDetailPage × List RemoteCall :=
  match company, id with
  | some c, some i =>
    let p1 := { p with loading := true, error := "" }
    let q1 := RemoteCall.table (truckByIdQuery i c.id)
    let q2 := RemoteCall.table (truckRecordsQuery i c.id)
    let failedMsg := "Failed to load truck data. Please try again."
    match r.truck with
    | .ok truckData =>
      let p2 := { p1 with truck := some truckData }
      match r.records with
      | .ok recordsData =>
        ({ p2 with maintenanceRecords := recordsData.getD [], loading := false }, [q1, q2])
      | .failed _ => ({ p2 with error := failedMsg, loading := false }, [q1, q2])
      | .threw _ => ({ p2 with error := failedMsg, loading := false }, [q1, q2])
    | .failed _ => ({ p1 with error := failedMsg, loading := false }, [q1])
    | .threw _ => ({ p1 with error := failedMsg, loading := false }, [q1])
  | _, _ => (p, [])

/-- Delete request of `handleDelete`. -/
def truckDeleteQuery (id : Option Nat) (company_id : Nat) : Query :=
  { table := .trucks, verb := .delete,
    filters := [(.id, idVal id), (.company_id, .num company_id)],
    single := false, order := none, limit := none }

/-- Handler `handleDelete` of `TruckDetail`: the new page state, the requests
issued and the navigation target.  Reading `company.id` of a null company
throws inside the `try` block before any request is sent. -/
def handleDelete (company : Option Company) (id : Option Nat) (r : Reply Unit)
    (p : TruckDetailPage) : TruckDetailPage × List RemoteCall × Option String :=
  let p1 := { p with error := "" }
  let failedPage : TruckDetailPage :=
    { p1 with error := "Failed to delete truck. Please try again.", showDeleteModal := false }
  match company with
  | none => (failedPage, [], none)
  | some c =>
    let calls := [RemoteCall.table (truckDeleteQuery id c.id)]
    match r with
    | .ok _ => (p1, calls, some "/trucks")
    | .failed _ => (failedPage, calls, none)
    | .threw _ => (failedPage, calls, none)

/-- What `TruckDetail` renders: the spinner, the "Truck not found" panel, or the
detail view of the loaded truck, with the delete modal open or not. -/
inductive TruckDetailView where
  | spinner
  | notFound
  | detail (truck : Truck) (deleteModal : Bool)
deriving DecidableEq, Repr

/-- Render function of `TruckDetail`. -/
def TruckDetailPage.render (p : TruckDetailPage) : TruckDetailView :=
  if p.loading then .spinner
  else
    match p.truck with
    | none => .notFound
    | some t => .detail t p.showDeleteModal

/-- Click on the modal's Delete button: the button, and so `handleDelete`, exists
only in the detail view with the modal open. -/
def clickDelete (company : Option Company) (id : Option Nat) (r : Reply Unit)
    (p : TruckDetailPage) : TruckDetailPage × List RemoteCall × Option String :=
  match p.render with
  | .detail _ true => handleDelete company id r p
  | _ => (p, [], none)

/-! ### `AddMaintenanceRecord` -/

/-- State of the `AddMaintenanceRecord` page. -/
structure AddRecordPage where
  truck : Option Truck
  loading : Bool
  error : String
deriving DecidableEq, Repr

/-- Initial hook values of `AddMaintenanceRecord`. -/
def AddRecordPage.initial : AddRecordPage :=
  { truck := none, loading := true, error := "" }

/-- Effect `fetchTruck` of `AddMaintenanceRecord`. -/
def fetchTruck (company : Option Company) (id : Option Nat) (r : Reply Truck)
    (p : AddRecordPage) : AddRecordPage × List RemoteCall :=
  match company, id with
  | some c, some i =>
    let p1 := { p with loading := true, error := "" }
    let calls := [RemoteCall.table (truckByIdQuery i c.id)]
    let failedMsg := "Failed to load truck data. Please try again."
    match r with
    | .ok data => ({ p1 with truck := some data, loading := false }, calls)
    | .failed _ => ({ p1 with error := failedMsg, loading := false }, calls)
    | .threw _ => ({ p1 with error := failedMsg, loading := false }, calls)
  | _, _ => (p, [])

/-- Form values handed to `handleSubmit`, already validated by
`MaintenanceSchema` (mileage is a number not below 0). -/
structure RecordValues where
  maintenance_type : String
  performed_at : String
  mileage : Nat
  next_due_mileage : Option Nat
  part_make_model : String
  notes : String
deriving DecidableEq, Repr

/-- Cell for an optional number. -/
def optNum : Option Nat → Val
  | some n => .num n
  | none => .null

/-- Insert request of `handleSubmit`: the form values with `performed_at`
reformatted, then `company_id` and `truck_id`. -/
def recordInsertQuery (toISOString : String → String) (values : RecordValues)
    (company_id truck_id : Nat) : Query :=
  { table := .maintenance_records,
    verb := .insert [(.maintenance_type, .str values.maintenance_type),
      (.performed_at, .str (toISOString values.performed_at)),
      (.mileage, .num values.mileage),
      (.next_due_mileage, optNum values.next_due_mileage),
      (.part_make_model, .str values.part_make_model),
      (.notes, .str values.notes),
      (.company_id, .num company_id),
      (.truck_id, .num truck_id)],
    filters := [], single := false, order := none, limit := none }

/-- Mileage update of `handleSubmit`. -/
def mileageUpdateQuery (truck_id company_id mileage : Nat) : Query :=
  { table := .trucks, verb := .update [(.current_mileage, .num mileage)],
    filters := [(.id, .num truck_id), (.company_id, .num company_id)],
    single := false, order := none, limit := none }

/-- Replies of the two requests of `handleSubmit`. -/
structure SubmitReplies where
  insert : Reply Unit
  update : Reply Unit
deriving DecidableEq, Repr

/-- Handler `handleSubmit` of `AddMaintenanceRecord`: the new page state, the
requests issued and the navigation target.  `toISOString` stands for
`new Date(x).toISOString()` on the validated date. -/
def handleSubmit (toISOString : String → String) (company : Option Company)
    (id : Option Nat) (values : RecordValues) (r : SubmitReplies) (p : AddRecordPage) :
    AddRecordPage × List RemoteCall × Option String :=
  match company, p.truck with
  | some c, some truck =>
    let p1 := { p with error := "" }
    let failedPage : AddRecordPage :=
      { p1 with error := "Failed to add maintenance record. Please try again." }
    let ins := RemoteCall.table (recordInsertQuery toISOString values c.id truck.id)
    let target := "/trucks/" ++ (match id with | some i => toString i | none => "undefined")
    match r.insert with
    | .failed _ => (failedPage, [ins], none)
    | .threw _ => (failedPage, [ins], none)
    | .ok _ =>
      if values.mileage > truck.current_mileage then
        let upd := RemoteCall.table (mileageUpdateQuery truck.id c.id values.mileage)
        match r.update with
        | .ok _ => (p1, [ins, upd], some target)
        | .failed _ => (failedPage, [ins, upd], none)
        | .threw _ => (failedPage, [ins, upd], none)
      else (p1, [ins], some target)
  | _, _ => (p, [], none)

/-- What `AddMaintenanceRecord` renders: the spinner, the "Truck not found"
panel, or the form for the loaded truck. -/
inductive AddRecordView where
  | spinner
  | notFound
  | form (truck : Truck)
deriving DecidableEq, Repr

/-- Render function of `AddMaintenanceRecord`. -/
def AddRecordPage.render (p : AddRecordPage) : AddRecordView :=
  if p.loading then .spinner
  else
    match p.truck with
    | none => .notFound
    | some t => .form t

/-! ### `Dashboard` -/

/-- Trucks request of `fetchDashboardData`. -/
def dashboardTrucksQuery (company_id : Nat) : Query :=
  { table := .trucks, verb := .select "id, name, make, model, year, last_maintenance_date",
    filters := [(.company_id, .num company_id)],
    single := false, order := none, limit := none }

/-- Recent-maintenance request of `fetchDashboardData`. -/
def dashboardMaintenanceQuery (company_id : Nat) : Query :=
  { table := .maintenance_records,
    verb := .select "id, maintenance_date, maintenance_type, notes, trucks (id, name)",
    filters := [(.company_id, .num company_id)],
    single := false, order := some { column := "maintenance_date", ascending := false },
    limit := some 5 }

/-- Requests issued by the effect `fetchDashboardData` of `Dashboard`, given
the reply to the trucks request: nothing without a company; the maintenance
request follows only a trucks request that neither reported an error nor threw.
The statistics computed from the rows issue no request. -/
def fetchDashboardDataCalls {α : Type} (company : Option Company) (trucks : Reply α) :
    List RemoteCall :=
  match company with
  | none => []
  | some c =>
    match trucks with
    | .ok _ => [.table (dashboardTrucksQuery c.id), .table (dashboardMaintenanceQuery c.id)]
    | .failed _ => [.table (dashboardTrucksQuery c.id)]
    | .threw _ => [.table (dashboardTrucksQuery c.id)]

/-! ### Remote `trucks` table with exact equality-filter semantics -/

/-- Cell of a truck row in a column that the application filters on or writes. -/
def Truck.cell (t : Truck) : Column → Val
  | .id => .num t.id
  | .company_id => .num t.company_id
  | .current_mileage => .num t.current_mileage
  | .notes => .str t.notes
  | _ => .null

/-- Row satisfies every `.eq(column, value)` filter. -/
def Truck.satisfies (t : Truck) (filters : List (Column × Val)) : Bool :=
  filters.all (fun f => t.cell f.1 == f.2)

/-- Write one cell of an update into a row. -/
def Truck.write (t : Truck) : Column × Val → Truck
  | (.current_mileage, .num m) => { t with current_mileage := m }
  | (.notes, .str n) => { t with notes := n }
  | _ => t

/-- Error reported by `.single()` when the filters do not select exactly one
row. -/
def singleRowError : Err :=
  { code := "PGRST116", message := "JSON object requested, multiple (or no) rows returned" }

/-- Answer of the remote `trucks` table to a `.single()` select: the row when
exactly one row satisfies the filters, the single-row error otherwise. -/
def selectSingleTruck (trucks : List Truck) (q : Query) : Reply Truck :=
  match trucks.filter (fun t => t.satisfies q.filters) with
  | [t] => .ok t
  | _ => .failed singleRowError

/-- Remote `trucks` table after a call: an update rewrites, a delete removes,
exactly the rows that satisfy the filters; every other call leaves it as is. -/
def trucksAfter (trucks : List Truck) : RemoteCall → List Truck
  | .table q =>
    if q.table = .trucks then
      match q.verb with
      | .update changes =>
        trucks.map (fun t => if t.satisfies q.filters then changes.foldl Truck.write t else t)
      | .delete => trucks.filter (fun t => !t.satisfies q.filters)
      | _ => trucks
    else trucks
  | _ => trucks

/-- Remote `trucks` table after a sequence of calls. -/
def trucksAfterAll (trucks : List Truck) (calls : List RemoteCall) : List Truck :=
  calls.foldl trucksAfter trucks

/-- Reply is a success (`error` null, nothing thrown). -/
def Reply.succeeded {α : Type} : Reply α → Bool
  | .ok _ => true
  | .failed _ => false
  | .threw _ => false

/-- Remote `trucks` table after the requests of a submission, the first answered
by the insert reply and the second by the update reply: a request that reported
an error or threw changed nothing. -/
def trucksAfterSubmit (trucks : List Truck) (calls : List RemoteCall) (r : SubmitReplies) :
    List Truck :=
  (calls.zip [r.insert.succeeded, r.update.succeeded]).foldl
    (fun tbl x => if x.2 then trucksAfter tbl x.1 else tbl) trucks

/-- Stored mileage of the truck with the given id. -/
def storedMileage (trucks : List Truck) (id : Nat) : Option Nat :=
  (trucks.find? (fun t => t.id = id)).map (fun t => t.current_mileage)

/-- Call is a select, update or delete on `trucks` or `maintenance_records`. -/
def RemoteCall.readsOrWritesFleet : RemoteCall → Bool
  | .table q =>
    (q.table = .trucks || q.table = .maintenance_records) &&
      (match q.verb with
       | .insert _ => false
       | _ => true)
  | _ => false

/-- Call carries the equality filter `company_id = cid`. -/
def RemoteCall.hasCompanyFilter (cid : Nat) : RemoteCall → Bool
  | .table q => q.filters.contains (Column.company_id, Val.num cid)
  | _ => false

/-- Row written by an insert into `maintenance_records`, if the call is one. -/
def RemoteCall.insertedRecord : RemoteCall → Option (List (Column × Val))
  | .table q =>
    if q.table = .maintenance_records then
      match q.verb with
      | .insert row => some row
      | _ => none
    else none
  | _ => none

/-- Every select, update and delete on `trucks` or `maintenance_records` among
the calls carries the filter `company_id = company.id` of the given session
company (and there is such a company). -/
def tenantScoped (company : Option Company) (calls : List RemoteCall) : Bool :=
  calls.all (fun call =>
    !call.readsOrWritesFleet ||
      (match company with
       | some c => call.hasCompanyFilter c.id
       | none => false))

/-- Every maintenance record inserted among the calls has `company_id` equal to
the id of the session company and `truck_id` equal to the id of the page truck. -/
def insertsTagged (company : Option Company) (truck : Option Truck)
    (calls : List RemoteCall) : Bool :=
  calls.all (fun call =>
    match call.insertedRecord with
    | none => true
    | some row =>
      (match company, truck with
       | some c, some t =>
         row.lookup Column.company_id == some (Val.num c.id) &&
           row.lookup Column.truck_id == some (Val.num t.id)
       | _, _ => false))

/-- Lookup reply after which `register` goes on to `signUp`: a reported error, a
`null` result or an empty list. -/
def lookupPasses : Reply (Option (List String)) → Bool
  | .failed _ => true
  | .ok none => true
  | .ok (some rows) => rows.length = 0
  | .threw _ => false

/-! ## Initialization effect, session-change callback and safety timeout -/

/-- Value of `session?.user || null`. -/
def userOf (session : Option Session) : Option User :=
  session.bind (fun x => x.user)

/-- Request `from('companies').select('*').eq('user_id', id).single()` of the
initial session load and of the session-change callback. -/
def companyByUserQuery (user_id : Nat) : Query :=
  { table := .companies, verb := .select "*", filters := [(.user_id, .num user_id)],
    single := true, order := none, limit := none }

/-- Synchronous part of the initialization effect: the liveness flag is raised,
`initializing` is set, and `getSession` either returns at once because the
attempted-flag is set (clearing `initializing`) or sets the flag and issues the
remote `getSession`.  The timer and the subscription registered afterwards are
the `loadingTimeout` and `authChanged` events that may follow. -/
def effectRun (s : AuthState) : AuthState × List RemoteCall :=
  let s1 := safeSetInitializing { s with isMounted := true } true
  if s1.initAttempted then (safeSetInitializing s1 false, [])
  else ({ s1 with initAttempted := true }, [.getSession])

/-- Cleanup function of the initialization effect. -/
def effectCleanup (s : AuthState) : AuthState :=
  { s with isMounted := false }

/-- Segment of `getSession` from the reply of the remote `getSession` to the
company request (when the session carries a user) or to the end. -/
def sessionLoaded (s : AuthState) (r : Reply (Option Session)) : AuthState × List RemoteCall :=
  match r with
  | .threw e => (safeSetInitializing (safeSetError s (some e)) false, [])
  | .failed e =>
    (safeSetInitializing (safeSetInitializing (safeSetError s (some e)) false) false, [])
  | .ok session =>
    match userOf session with
    | some u => (safeSetUser s (userOf session), [.table (companyByUserQuery u.id)])
    | none => (safeSetInitializing (safeSetUser s (userOf session)) false, [])

/-- Segment of `getSession` from the reply of the company request to the end. -/
def initialCompanyLoaded (s : AuthState) (r : Reply Company) : AuthState :=
  match r with
  | .ok companyData => safeSetInitializing (safeSetCompany s (some companyData)) false
  | .failed companyError =>
    if companyError.code ≠ "PGRST116" then
      safeSetInitializing (safeSetError s (some companyError)) false
    else safeSetInitializing s false
  | .threw fetchError => safeSetInitializing (safeSetError s (some fetchError)) false

/-- Continuation of `getSession` after its remote call, run without
interleaving; the company reply is read only when the session carries a user. -/
def initialSessionLoad (s : AuthState) (rs : Reply (Option Session)) (rc : Reply Company) :
    AuthState × List RemoteCall :=
  match (sessionLoaded s rs).2 with
  | [] => sessionLoaded s rs
  | calls => (initialCompanyLoaded (sessionLoaded s rs).1 rc, calls)

/-- Callback of the safety timeout; `initializing` is the value captured by the
closure of the effect. -/
def loadingTimeout (initializing : Bool) (s : AuthState) : AuthState :=
  if s.isMounted && initializing then safeSetInitializing s false else s

/-- Value of `initializing` seen by the timeout callback: the effect has an empty
dependency list, so its closure is that of the mount render, where the cell has
its initial value. -/
def capturedInitializing : Bool :=
  AuthState.initial.initializing

/-- First segment of the session-change callback, up to the company request
(when the session carries a user) or to the end. -/
def authChanged (s : AuthState) (session : Option Session) : AuthState × List RemoteCall :=
  match userOf session with
  | some u => (safeSetUser s (userOf session), [.table (companyByUserQuery u.id)])
  | none =>
    (safeSetInitializing (safeSetCompany (safeSetUser s (userOf session)) none) false, [])

/-- Second segment of the session-change callback, from the reply of the company
request to the end; on a reported error the row `companyData` is null. -/
def authCompanyLoaded (s : AuthState) (r : Reply Company) : AuthState :=
  match r with
  | .ok companyData => safeSetInitializing (safeSetCompany s (some companyData)) false
  | .failed companyError =>
    if companyError.code ≠ "PGRST116" then
      safeSetInitializing (safeSetError s (some companyError)) false
    else safeSetInitializing (safeSetCompany s none) false
  | .threw error => safeSetInitializing (safeSetError s (some error)) false

/-- Session-change callback run without interleaving; the company reply is read
only when the session carries a user. -/
def onAuthStateChange (s : AuthState) (session : Option Session) (rc : Reply Company) :
    AuthState × List RemoteCall :=
  match (authChanged s session).2 with
  | [] => authChanged s session
  | calls => (authCompanyLoaded (authChanged s session).1 rc, calls)

/-- Answer of a remote `companies` table with exact equality-filter and
single-row semantics to the company request for a user. -/
def selectCompanyByUser (companies : List Company) (user_id : Nat) : Reply Company :=
  match companies.filter (fun c => c.user_id = user_id) with
  | [c] => .ok c
  | _ => .failed singleRowError

/-! ## The store as a transition system -/

/-- Steps of the session store: each is one synchronous segment of its code,
started by React (effect run and cleanup), by a timer, by the remote client
(replies and session-change notifications) or by a consumer (operations and
`setCompany`). -/
inductive StoreEvent where
  | effectRun
  | effectCleanup
  | sessionLoaded (r : Reply (Option Session))
  | initialCompanyLoaded (r : Reply Company)
  | loadingTimeout
  | authChanged (session : Option Session)
  | authCompanyLoaded (r : Reply Company)
  | loginBegin (email password : String)
  | loginSettle (r : Reply AuthData)
  | registerBegin (email : String)
  | registerResume (email password companyName address phone : String) (r : RegisterReplies)
  | logoutBegin
  | logoutSettle (r : Reply Unit)
  | setCompany (data : Option Company)
deriving DecidableEq, Repr

/-- State after a step and the remote calls the step issues. -/
def step (s : AuthState) : StoreEvent → AuthState × List RemoteCall
  | .effectRun => effectRun s
  | .effectCleanup => (effectCleanup s, [])
  | .sessionLoaded r => sessionLoaded s r
  | .initialCompanyLoaded r => (initialCompanyLoaded s r, [])
  | .loadingTimeout => (loadingTimeout capturedInitializing s, [])
  | .authChanged session => authChanged s session
  | .authCompanyLoaded r => (authCompanyLoaded s r, [])
  | .loginBegin email password => (loginBegin s, [.signInWithPassword email password])
  | .loginSettle r => ((loginSettle s [] r).1, [])
  | .registerBegin email => (registerBegin s, [.table (emailLookupQuery email)])
  | .registerResume email password companyName address phone r =>
    ((registerAfterCheck s [] email password companyName address phone r).1,
     (registerAfterCheck s [] email password companyName address phone r).2.1)
  | .logoutBegin => (logoutBegin s, [.signOut])
  | .logoutSettle r => ((logoutSettle s [] r).1, [])
  | .setCompany data => (safeSetCompany s data, [])

/-- State after a sequence of steps and the remote calls issued along it. -/
def run (s : AuthState) : List StoreEvent → AuthState × List RemoteCall
  | [] => (s, [])
  | e :: es => ((run (step s e).1 es).1, (step s e).2 ++ (run (step s e).1 es).2)

/-- Step after which the initial session fetch has resolved, a session-change
event has been handled, or the safety timeout has fired. -/
def StoreEvent.settlesInitialization : StoreEvent → Bool
  | .sessionLoaded _ => true
  | .initialCompanyLoaded _ => true
  | .loadingTimeout => true
  | .authChanged _ => true
  | .authCompanyLoaded _ => true
  | _ => false

/-- Step that is a segment of login, register or logout. -/
def StoreEvent.isAction : StoreEvent → Bool
  | .loginBegin _ _ => true
  | .loginSettle _ => true
  | .registerBegin _ => true
  | .registerResume _ _ _ _ _ _ => true
  | .logoutBegin => true
  | .logoutSettle _ => true
  | _ => false

/-! ## `useAuth` (`hooks/useAuth.js`) -/

/-- Default value given to `createContext` in `AuthContext.jsx`, without its
no-op operations. -/
def defaultContextValue : AuthValue :=
  { user := none, company := none, loading := false, error := none }

/-- Value of `useContext(AuthContext)`: the value of the nearest `AuthProvider`
when the caller is inside one, the default value of the context otherwise.  A
`null` or `undefined` context would be `none`. -/
def useContextAuth (provider : Option AuthValue) : Option AuthValue :=
  match provider with
  | some value => some value
  | none => some defaultContextValue

/-- Thrown `new Error('useAuth must be used within an AuthProvider')`. -/
def useAuthError : Err :=
  { code := "", message := "useAuth must be used within an AuthProvider" }

/-- Hook `useAuth`, called under the given provider (`none` outside any
provider): throws when the context is falsy, returns it otherwise. -/
def useAuth (provider : Option AuthValue) : Except Err AuthValue :=
  match useContextAuth provider with
  | none => .error useAuthError
  | some context => .ok context

/-! ## `AppInitializer` and `checkSupabaseConnection` -/

/-- Result `{ connected, error }` of `checkSupabaseConnection`. -/
structure ConnectionResult where
  connected : Bool
  error : Option Err
deriving DecidableEq, Repr

/-- Function `checkSupabaseConnection` on the reply of its probe query: a
reported error and an exception both give `connected: false` with the error. -/
def checkSupabaseConnection {α : Type} (r : Reply α) : ConnectionResult :=
  match r with
  | .ok _ => { connected := true, error := none }
  | .failed e => { connected := false, error := some e }
  | .threw e => { connected := false, error := some e }

/-- State of `AppInitializer`. -/
structure InitializerState where
  isReady : Bool
  connectionError : Option Err
deriving DecidableEq, Repr

/-- Initial hook values of `AppInitializer`. -/
def InitializerState.initial : InitializerState :=
  { isReady := false, connectionError := none }

/-- Effect `checkConnection` of `AppInitializer` on the outcome of the awaited
check: its result, or an exception caught by the `catch` block. -/
def checkConnection (st : InitializerState) (outcome : Except Err ConnectionResult) :
    InitializerState :=
  match outcome with
  | .ok result =>
    if !result.connected then { st with connectionError := result.error, isReady := true }
    else { st with isReady := true }
  | .error e => { st with connectionError := some e, isReady := true }

/-- What `AppInitializer` renders: the initializing placeholder, the full-screen
`ErrorDisplay` with its Retry button, or the routed application
(`BrowserRouter` around `AuthProvider` around `AppRouter`). -/
inductive InitializerView where
  | loadingFallback (message : String)
  | errorDisplay (error : Err)
  | routedApplication
deriving DecidableEq, Repr

/-- Render function of `AppInitializer`. -/
def InitializerState.render (st : InitializerState) : InitializerView :=
  if !st.isReady then .loadingFallback "Initializing application..."
  else
    match st.connectionError with
    | some e => .errorDisplay e
    | none => .routedApplication

/-! ## Route table of `AppRouter` -/

/-- Segment of a route path: a literal, a `:name` parameter or the splat. -/
inductive PathSegment where
  | lit (s : String)
  | param (name : String)
  | splat
deriving DecidableEq, Repr

/-- Page elements mounted by the route table. -/
inductive PageElement where
  | login
  | register
  | dashboard
  | trucks
  | truckDetail
  | addTruck
  | scanQR
  | company
  | notFound
deriving DecidableEq, Repr

/-- Wrapper around a routed page: `PublicRoute`, `ProtectedRoute` with the
`Layout`, or none. -/
inductive RouteWrapper where
  | publicRoute
  | protectedLayout
  | none
deriving DecidableEq, Repr

/-- Leaf of the route table with its full path: the children of the `/` route
are listed under their parent's wrapper, the index child with the empty path. -/
structure RouteEntry where
  path : List PathSegment
  wrapper : RouteWrapper
  element : PageElement
deriving DecidableEq, Repr

/-- Routes declared in `AppRouter`, in source order. -/
def routeTable : List RouteEntry :=
  [ { path := [.lit "login"], wrapper := .publicRoute, element := .login },
    { path := [.lit "register"], wrapper := .publicRoute, element := .register },
    { path := [], wrapper := .protectedLayout, element := .dashboard },
    { path := [.lit "trucks"], wrapper := .protectedLayout, element := .trucks },
    { path := [.lit "trucks", .param "id"], wrapper := .protectedLayout,
      element := .truckDetail },
    { path := [.lit "trucks", .lit "add"], wrapper := .protectedLayout, element := .addTruck },
    { path := [.lit "scan"], wrapper := .protectedLayout, element := .scanQR },
    { path := [.lit "company"], wrapper := .protectedLayout, element := .company },
    { path := [.splat], wrapper := .none, element := .notFound } ]

/-- Route path matches a location, given as its non-empty segments: a literal
matches itself, a parameter any segment, the splat any remainder. -/
def matchPath : List PathSegment → List String → Bool
  | [], [] => true
  | .splat :: _, _ => true
  | .lit s :: ps, x :: xs => s == x && matchPath ps xs
  | .param _ :: ps, _ :: xs => matchPath ps xs
  | _, _ => false

/-- Rank of a route path in the ordering of candidates of the router: every segment
counts 1, a literal 10 more, a parameter 3 more, the splat 2 less. -/
def routeScore (path : List PathSegment) : Int :=
  path.foldl
    (fun score seg =>
      match seg with
      | .lit _ => score + 11
      | .param _ => score + 4
      | .splat => score - 1)
    0

/-- Route that a location resolves to: among the matching routes the one of
highest rank, the earliest on a tie. -/
def resolveRoute (location : List String) : Option RouteEntry :=
  (routeTable.filter (fun r => matchPath r.path location)).foldl
    (fun best r =>
      match best with
      | none => some r
      | some b => if routeScore b.path < routeScore r.path then some r else some b)
    none

/-- Target of the "Add Record" link of `TruckDetail`, as location segments. -/
def addRecordLinkTarget (id : String) : List String :=
  ["trucks", id, "maintenance"]

/-! ## Column names -/

/-- Name of a column as written in the requests. -/
def Column.label : Column → String
  | .id => "id"
  | .company_id => "company_id"
  | .truck_id => "truck_id"
  | .user_id => "user_id"
  | .email => "email"
  | .name => "name"
  | .address => "address"
  | .phone => "phone"
  | .current_mileage => "current_mileage"
  | .maintenance_type => "maintenance_type"
  | .performed_at => "performed_at"
  | .mileage => "mileage"
  | .next_due_mileage => "next_due_mileage"
  | .part_make_model => "part_make_model"
  | .notes => "notes"

/-- Names of the columns written by a request. -/
def Query.writtenColumns (q : Query) : List String :=
  match q.verb with
  | .insert row => row.map (fun cell => cell.1.label)
  | .update changes => changes.map (fun cell => cell.1.label)
  | _ => []

/-! ## `SimpleQRCode` -/

/-- Static pattern drawn by `createQRCode`. -/
def qrPattern : List String :=
  [ "1111111000001111111",
    "1000001000001000001",
    "1011101000001011101",
    "1011101000001011101",
    "1011101000001011101",
    "1000001000001000001",
    "1111111101011111111",
    "0000000000000000000",
    "1010111010101010111",
    "0000001010100000001",
    "1111101010101111101",
    "0000101010100000101",
    "1111101010101111101",
    "0000000000000000000",
    "1111111101011111111",
    "1000001000001000001",
    "1011101000001011101",
    "1011101000001011101",
    "1011101000001011101",
    "1000001000001000001",
    "1111111000001111111" ]

/-- One `rect` element of the pattern. -/
def qrRect (num : ℚ → String) (x y : ℚ) (cellSize : Nat) (fgColor : String) : String :=
  "<rect x=\"" ++ num x ++ "\" y=\"" ++ num y ++ "\" width=\"" ++ num cellSize ++
    "\" height=\"" ++ num cellSize ++ "\" fill=\"" ++ fgColor ++ "\" />"

/-- Function `createQRCode` of `SimpleQRCode` for the props `value`, `size`,
`bgColor`, `fgColor`; `num` is the conversion of a number to text in a template
literal. -/
def createQRCode (num : ℚ → String) (value : String) (size : Nat)
    (bgColor fgColor : String) : String :=
  let cellSize : Nat := size / 25
  let offsetX : ℚ := ((size : ℚ) - ((qrPattern.headD "").length * cellSize : Nat)) / 2
  let offsetY : ℚ := ((size : ℚ) - (qrPattern.length * cellSize : Nat)) / 2
  let header :=
    "<svg width=\"" ++ num size ++ "\" height=\"" ++ num size ++ "\" viewBox=\"0 0 " ++
      num size ++ " " ++ num size ++ "\" xmlns=\"http://www.w3.org/2000/svg\">\n        " ++
      "<rect width=\"" ++ num size ++ "\" height=\"" ++ num size ++ "\" fill=\"" ++
      bgColor ++ "\" />"
  let cells :=
    qrPattern.enum.flatMap (fun row =>
      row.2.data.enum.filterMap (fun cell =>
        if cell.2 = '1' then
          some (qrRect num (offsetX + (cell.1 * cellSize : Nat)) (offsetY + (row.1 * cellSize : Nat))
            cellSize fgColor)
        else none))
  header ++ String.join cells ++ "</svg>"

/-- Prop `value` that `TruckDetail` passes to `SimpleQRCode`. -/
def truckQRValue (origin : String) (truck_id : Nat) : String :=
  origin ++ "/trucks/" ++ toString truck_id

/-! ## `Dashboard` computations -/

/-- Row of the trucks request of the Dashboard; the date is the time value, in
milliseconds, of `new Date(last_maintenance_date)`. -/
structure DashboardTruck where
  id : Nat
  name : String
  make : String
  model : String
  year : Nat
  last_maintenance_date : Option Int
deriving DecidableEq, Repr

/-- Milliseconds in a day, `1000 * 60 * 60 * 24`. -/
def msPerDay : Int := 1000 * 60 * 60 * 24

/-- Value of `Math.ceil(ms / (1000 * 60 * 60 * 24))` for a whole number of
milliseconds. -/
def ceilDays (ms : Int) : Int :=
  -((-ms) / 86400000)

/-- Date arithmetic with days of exactly 86,400,000 ms: the time value `days`
such days after `date`. -/
def exactDays (date days : Int) : Int :=
  date + days * msPerDay

/-- Trucks counted as needing maintenance at time `now`: those without a date
and those whose date is before `thirtyDaysAgo`.  `addDays date n` is the time
value of a `Date` with time value `date` after `setDate(getDate() + n)`, that is
`n` local calendar days later, which across a daylight-saving change is not
`n * 86,400,000` ms later. -/
def needMaintenance (addDays : Int → Int → Int) (now : Int) (trucks : List DashboardTruck) :
    List DashboardTruck :=
  trucks.filter (fun truck =>
    match truck.last_maintenance_date with
    | none => true
    | some lastMaintDate => decide (lastMaintDate < addDays now (-30)))

/-- Entry of the upcoming-maintenance list. -/
structure UpcomingItem where
  id : Nat
  truckName : String
  truckInfo : String
  dueDate : Int
  daysUntil : Int
deriving DecidableEq, Repr

/-- Entry computed for a truck with a last maintenance date: due 90 calendar
days later (`nextDate.setDate(nextDate.getDate() + 90)`), the day count being
the ceiling of the exact days from `now` to the due date. -/
def upcomingItem (addDays : Int → Int → Int) (now : Int) (truck : DashboardTruck)
    (lastDate : Int) : UpcomingItem :=
  { id := truck.id,
    truckName := truck.name,
    truckInfo := truck.make ++ " " ++ truck.model ++ " (" ++ toString truck.year ++ ")",
    dueDate := addDays lastDate 90,
    daysUntil := ceilDays (addDays lastDate 90 - now) }

/-- Entries that pass the filter `daysUntil > 0 && daysUntil <= 30`, before
sorting. -/
def upcomingCandidates (addDays : Int → Int → Int) (now : Int)
    (trucks : List DashboardTruck) : List UpcomingItem :=
  (trucks.filterMap
    (fun truck => truck.last_maintenance_date.map (upcomingItem addDays now truck))).filter
    (fun item => decide (0 < item.daysUntil) && decide (item.daysUntil ≤ 30))

/-- List `upcoming` of `fetchDashboardData`: the candidates in the stable order
of `sort((a, b) => a.daysUntil - b.daysUntil)`, cut by `slice(0, 5)`. -/
def upcomingMaintenance (addDays : Int → Int → Int) (now : Int)
    (trucks : List DashboardTruck) : List UpcomingItem :=
  ((upcomingCandidates addDays now trucks).insertionSort
    (fun a b => a.daysUntil ≤ b.daysUntil)).take 5

/-- Row of the recent-maintenance request of the Dashboard. -/
structure RecentMaintenance where
  id : Nat
  maintenance_type : String
  notes : String
deriving DecidableEq, Repr

/-- Counters shown by the Dashboard. -/
structure DashboardStats where
  totalTrucks : Nat
  trucksNeedingMaintenance : Nat
  recentMaintenanceCount : Nat
deriving DecidableEq, Repr

/-- State of the `Dashboard` page. -/
structure DashboardPage where
  loading : Bool
  error : Option String
  stats : DashboardStats
  recentMaintenance : List RecentMaintenance
  upcomingMaintenance : List UpcomingItem
deriving DecidableEq, Repr

/-- Initial hook values of `Dashboard`. -/
def DashboardPage.initial : DashboardPage :=
  { loading := true, error := none,
    stats := { totalTrucks := 0, trucksNeedingMaintenance := 0, recentMaintenanceCount := 0 },
    recentMaintenance := [], upcomingMaintenance := [] }

/-- Replies of the two requests of `fetchDashboardData`. -/
structure DashboardReplies where
  trucks : Reply (Option (List DashboardTruck))
  maintenance : Reply (Option (List RecentMaintenance))
deriving DecidableEq, Repr

/-- Message recorded by the `catch` block: `error.message || "Failed to load
dashboard data"`. -/
def dashboardErrorText (e : Err) : String :=
  if e.message = "" then "Failed to load dashboard data" else e.message

/-- Effect of `Dashboard`: returns at once without a company, otherwise runs
`fetchDashboardData` at time `now`, with the calendar arithmetic `addDays` of
`Date`. -/
def fetchDashboardData (addDays : Int → Int → Int) (now : Int) (company : Option Company)
    (r : DashboardReplies) (p : DashboardPage) : DashboardPage × List RemoteCall :=
  match company with
  | none => (p, [])
  | some c =>
    let p1 := { p with loading := true, error := none }
    let q1 := RemoteCall.table (dashboardTrucksQuery c.id)
    let q2 := RemoteCall.table (dashboardMaintenanceQuery c.id)
    match r.trucks with
    | .failed e => ({ p1 with error := some (dashboardErrorText e), loading := false }, [q1])
    | .threw e => ({ p1 with error := some (dashboardErrorText e), loading := false }, [q1])
    | .ok trucks =>
      match r.maintenance with
      | .failed e =>
        ({ p1 with error := some (dashboardErrorText e), loading := false }, [q1, q2])
      | .threw e =>
        ({ p1 with error := some (dashboardErrorText e), loading := false }, [q1, q2])
      | .ok maintenance =>
        ({ p1 with
            stats :=
              { totalTrucks := (trucks.getD []).length,
                trucksNeedingMaintenance := (needMaintenance addDays now (trucks.getD [])).length,
                recentMaintenanceCount := (maintenance.getD []).length },
            recentMaintenance := maintenance.getD [],
            upcomingMaintenance := upcomingMaintenance addDays now (trucks.getD []),
            loading := false }, [q1, q2])

/-- What `Dashboard` renders: the loading indicator, the error panel or the
dashboard. -/
inductive DashboardView where
  | loadingFallback (message : String)
  | errorPanel (error : String)
  | content (stats : DashboardStats) (recent : List RecentMaintenance)
      (upcoming : List UpcomingItem)
deriving DecidableEq, Repr

/-- Render function of `Dashboard`; an empty error text is falsy. -/
def DashboardPage.render (p : DashboardPage) : DashboardView :=
  if p.loading then .loadingFallback "Loading dashboard data..."
  else
    match p.error with
    | some e =>
      if e = "" then .content p.stats p.recentMaintenance p.upcomingMaintenance
      else .errorPanel e
    | none => .content p.stats p.recentMaintenance p.upcomingMaintenance

/-! ## `TruckList` search and view -/

/-- Test `s.includes(searchString)`: the second text occurs in the first. -/
def includes (s searchString : String) : Bool :=
  decide (searchString.data <:+: s.data)

/-- List `filteredTrucks` of `TruckList`; `toLowerCase` is the string method. -/
def filteredTrucks (toLowerCase : String → String) (trucks : List Truck)
    (searchTerm : String) : List Truck :=
  trucks.filter (fun truck =>
    includes (toLowerCase truck.make) (toLowerCase searchTerm) ||
    includes (toLowerCase truck.model) (toLowerCase searchTerm) ||
    includes (toLowerCase truck.vin) (toLowerCase searchTerm) ||
    includes (toLowerCase truck.license_plate) (toLowerCase searchTerm))

/-- What `TruckList` renders: the spinner, or the page with the error text and
the filtered list. -/
inductive TruckListView where
  | spinner
  | list (error : String) (trucks : List Truck)
deriving DecidableEq, Repr

/-- Render function of `TruckList`. -/
def TruckListPage.render (toLowerCase : String → String) (p : TruckListPage) :
    TruckListView :=
  if p.loading then .spinner
  else .list p.error (filteredTrucks toLowerCase p.trucks p.searchTerm)

/-! ## `Login` page under `AppRouter` -/

/-- State of the `Login` page. -/
structure LoginPage where
  error : String
  message : String
  isSubmitting : Bool
deriving DecidableEq, Repr

/-- Initial hook values of `Login`. -/
def LoginPage.initial : LoginPage :=
  { error := "", message := "", isSubmitting := false }

/-- Banner text set by the `catch` block of `handleSubmit`:
`'Failed to sign in. ' + (error.message || 'Please check your credentials.')`. -/
def signInFailureText (e : Err) : String :=
  "Failed to sign in. " ++ (if e.message = "" then "Please check your credentials." else e.message)

/-- First segment of `handleSubmit` of `Login`, up to the awaited `login`: the
new page state and whether `login` is called. -/
def Login.handleSubmitBegin (p : LoginPage) : LoginPage × Bool :=
  if p.isSubmitting then (p, false)
  else ({ p with error := "", isSubmitting := true }, true)

/-- Second segment of `handleSubmit` of `Login`, from the outcome of `login` on:
the state updates it requests and the navigation target. -/
def Login.handleSubmitSettle (outcome : Except Err AuthData) :
    (LoginPage → LoginPage) × Option String :=
  match outcome with
  | .ok _ => (fun p => p, some "/")
  | .error e =>
    (fun p => { p with error := signInFailureText e, isSubmitting := false }, none)

/-- What `AppRouter` returns: its loading placeholder while the exposed loading
flag is up, the route table otherwise. -/
inductive AppRouterView where
  | loadingFallback (message : String)
  | routes
deriving DecidableEq, Repr

/-- Component `AppRouter`. -/
def AppRouter (ctx : AuthValue) : AppRouterView :=
  if ctx.loading then .loadingFallback "Loading application..." else .routes

/-- Mounted instance of the `Login` page: the number of its mount and its hook
state. -/
structure LoginInstance where
  mount : Nat
  page : LoginPage
deriving DecidableEq, Repr

/-- Component tree at the location `/login`: the mounted `Login` instance, if
any, and the number of mounts so far. -/
structure LoginTree where
  mounted : Option LoginInstance
  mounts : Nat
deriving DecidableEq, Repr

/-- Tree before the first render. -/
def LoginTree.empty : LoginTree :=
  { mounted := none, mounts := 0 }

/-- Tree after a render at `/login` with the given context value: when
`AppRouter` returns its placeholder, or `PublicRoute` does not render its
children, the `Login` instance is unmounted and its state is gone; otherwise the
mounted instance is kept, or a fresh one is mounted. -/
def renderAtLogin (ctx : AuthValue) (t : LoginTree) : LoginTree :=
  match AppRouter ctx with
  | .loadingFallback _ => { t with mounted := none }
  | .routes =>
    match PublicRoute ctx with
    | .children =>
      match t.mounted with
      | some _ => t
      | none => { mounted := some { mount := t.mounts, page := LoginPage.initial },
                  mounts := t.mounts + 1 }
    | _ => { t with mounted := none }

/-- State update requested by a closure of the instance of the given mount: it
applies to that instance while it is mounted and is dropped otherwise. -/
def LoginTree.update (t : LoginTree) (mount : Nat) (f : LoginPage → LoginPage) : LoginTree :=
  match t.mounted with
  | some i => if i.mount = mount then { t with mounted := some { i with page := f i.page } } else t
  | none => t

/-- What is shown at `/login`. -/
inductive LoginScreen where
  | loadingApplication
  | away
  | loginForm (error : String) (message : String)
deriving DecidableEq, Repr

/-- Screen shown at `/login` for a context value and a rendered tree; the error
banner of the form is shown when its text is not empty. -/
def screenAtLogin (ctx : AuthValue) (t : LoginTree) : LoginScreen :=
  match AppRouter ctx with
  | .loadingFallback _ => .loadingApplication
  | .routes =>
    match t.mounted with
    | some i => .loginForm i.page.error i.page.message
    | none => .away

/-- Submission of the login form, with the renders that follow the state
changes of the store: `handleSubmit` starts on the mounted instance and calls
`login`, the tree is rendered with the store state while the sign-in is pending,
the sign-in is answered, `login` ends, `handleSubmit` resumes with its outcome,
and the tree is rendered again.  Result: the store, the tree and the navigation
target. -/
def submitLoginForm (s : AuthState) (t : LoginTree) (email password : String)
    (r : Reply AuthData) : AuthState × LoginTree × Option String :=
  match t.mounted with
  | none => (s, t, none)
  | some i =>
    match Login.handleSubmitBegin i.page with
    | (_, false) => (s, t, none)
    | (p1, true) =>
      let t1 := t.update i.mount (fun _ => p1)
      let s1 := loginBegin s
      let t2 := renderAtLogin s1.value t1
      let out := loginSettle s1 [.signInWithPassword email password] r
      let resumed := Login.handleSubmitSettle out.2.2
      let t3 := t2.update i.mount resumed.1
      (out.1, renderAtLogin out.1.value t3, resumed.2)

/-! ## Properties of the guards and of the session store -/

/-- C1: decision table of the route guards.  While the snapshot is loading both
guards render the loading placeholder (no redirect, no children); once settled,
`ProtectedRoute` renders its children for a present user and redirects to
`/login` otherwise, `PublicRoute` renders its children for an absent user and
redirects to `/` otherwise. -/
theorem route_guards_decision_table (user : Option User) (u : User)
    (company : Option Company) (error : Option Err) :
    ProtectedRoute ⟨user, company, true, error⟩ = .loadingFallback "Checking authentication..." ∧
    PublicRoute ⟨user, company, true, error⟩ = .loadingFallback "Checking authentication..." ∧
    ProtectedRoute ⟨some u, company, false, error⟩ = .children ∧
    ProtectedRoute ⟨none, company, false, error⟩ = .navigate "/login" ∧
    PublicRoute ⟨none, company, false, error⟩ = .children ∧
    PublicRoute ⟨some u, company, false, error⟩ = .navigate "/" := by
  simp [ProtectedRoute, PublicRoute]

/-- C2 as stated fails: on a store whose liveness flag is false the guarded
setter drops the error, so after a login whose sign-in reports `e` the error
field is not `e`. -/
theorem login_error_dropped_after_teardown :
    (login { AuthState.initial with isMounted := false } "a@b.com" "wrong"
      (.failed ⟨"invalid_credentials", "Invalid login credentials"⟩)).1.error
      ≠ some ⟨"invalid_credentials", "Invalid login credentials"⟩ := by
  simp [login, loginBegin, loginSettle, settle, safeSetError, safeSetLoading,
    AuthState.initial]

/-- C2 (amended): for a mounted store and a login whose sign-in reports `e`, the
user and company are those before the call, the error field is `e`, login
rejects with `e` and the sign-in was the only remote call; moreover neither
segment of login writes user or company, whatever the state it resumes in. -/
theorem login_reported_error (s : AuthState) (email password : String) (e : Err)
    (hm : s.isMounted = true) :
    (login s email password (.failed e)).1.user = s.user ∧
    (login s email password (.failed e)).1.company = s.company ∧
    (login s email password (.failed e)).1.error = some e ∧
    (login s email password (.failed e)).2.2 = .error e ∧
    (login s email password (.failed e)).2.1 = [.signInWithPassword email password] ∧
    (∀ s0 : AuthState, (loginBegin s0).user = s0.user ∧ (loginBegin s0).company = s0.company) ∧
    (∀ (s1 : AuthState) (calls : List RemoteCall),
      (loginSettle s1 calls (.failed e)).1.user = s1.user ∧
      (loginSettle s1 calls (.failed e)).1.company = s1.company ∧
      (loginSettle s1 calls (.failed e)).2.2 = .error e) := by
  refine ⟨?_, ?_, ?_, ?_, ?_, ?_, ?_⟩
  · simp [login, loginBegin, loginSettle, settle, safeSetError, safeSetLoading, hm]
  · simp [login, loginBegin, loginSettle, settle, safeSetError, safeSetLoading, hm]
  · simp [login, loginBegin, loginSettle, settle, safeSetError, safeSetLoading, hm]
  · simp [login, loginSettle, settle]
  · simp [login, loginSettle, settle]
  · intro s0
    cases h : s0.isMounted <;> simp [loginBegin, safeSetError, safeSetLoading, h]
  · intro s1 calls
    cases h : s1.isMounted <;> simp [loginSettle, settle, safeSetError, safeSetLoading, h]

/-- Witness of C2 (amended) on the freshly created store. -/
theorem login_reported_error_witness :
    AuthState.initial.isMounted = true ∧
    (login AuthState.initial "a@b.com" "wrong" (.failed ⟨"invalid_credentials", "bad"⟩)).1.user
      = AuthState.initial.user ∧
    (login AuthState.initial "a@b.com" "wrong" (.failed ⟨"invalid_credentials", "bad"⟩)).1.error
      = some ⟨"invalid_credentials", "bad"⟩ :=
  ⟨rfl,
   (login_reported_error AuthState.initial "a@b.com" "wrong" ⟨"invalid_credentials", "bad"⟩ rfl).1,
   (login_reported_error AuthState.initial "a@b.com" "wrong"
      ⟨"invalid_credentials", "bad"⟩ rfl).2.2.1⟩

/-- Calls of a `register` that resolves: the lookup, `signUp`, the company insert
for the new user and last `signOut`, in this order. -/
theorem register_resolved_calls (s : AuthState)
    (email password companyName address phone : String) (r : RegisterReplies)
    (data : AuthData)
    (h : (register s email password companyName address phone r).2.2 = .ok data) :
    ∃ u, data.user = some u ∧
      (register s email password companyName address phone r).2.1 =
        [.table (emailLookupQuery email), .signUp email password,
         .table (companyInsertQuery companyName u.id address phone email), .signOut] := by
  obtain ⟨check, signUp, insert, signOut⟩ := r
  rcases check with (_ | _ | ⟨row, rows⟩) | _ | _ <;>
    rcases signUp with ⟨_ | u, sess⟩ | _ | _ <;>
    rcases insert with _ | _ | _ <;>
    rcases signOut with _ | _ | _ <;>
    simp [register, registerAfterCheck, registerAfterSignUp, registerAfterInsert,
      registerAfterSignOut, settle] at h ⊢ <;>
    simp [← h]

/-- C6 as stated fails: a company row with the email exists, the lookup reports
an error, and `register` goes on to `signUp` and the company insert and
resolves. -/
theorem register_signs_up_when_lookup_reports_error :
    (∃ c ∈ [({ id := 1, name := "Acme", address := "", city := "", state := "", zip := "",
               phone := "", email := "a@b.com", user_id := 7 } : Company)],
        c.email = "a@b.com") ∧
    (register AuthState.initial "a@b.com" "pw" "Acme" "1 Road" "555"
      { check := .failed ⟨"500", "lookup failed"⟩,
        signUp := .ok ⟨some ⟨8, "a@b.com"⟩, none⟩,
        insert := .ok (), signOut := .ok () }).2 =
      ([.table (emailLookupQuery "a@b.com"), .signUp "a@b.com" "pw",
        .table (companyInsertQuery "Acme" 8 "1 Road" "555" "a@b.com"), .signOut],
       .ok ⟨some ⟨8, "a@b.com"⟩, none⟩) := by
  constructor
  · exact ⟨_, List.mem_singleton.mpr rfl, rfl⟩
  · rfl

/-- The duplicate-email lookup of a faithful table returns a row when one with
that email is stored. -/
theorem lookupEmails_length_pos (companies : List Company) (email : String)
    (h : ∃ c ∈ companies, c.email = email) : 0 < (lookupEmails companies email).length := by
  obtain ⟨c, hc, he⟩ := h
  have hmem : c ∈ companies.filter (fun c => c.email = email) := by
    simp [List.mem_filter, hc, he]
  have hpos : 0 < (companies.filter (fun c => c.email = email)).length :=
    List.length_pos_of_mem hmem
  simp only [lookupEmails, List.length_take, List.length_map]
  omega

/-- C6 (amended): when a company row with the email exists and the lookup
answers from the table without error, `register` rejects with the
duplicate-email error, and the lookup is its only remote call: `signUp` and the
company insert are never invoked. -/
theorem register_rejects_duplicate_email (s : AuthState)
    (email password companyName address phone : String) (r : RegisterReplies)
    (companies : List Company)
    (hrow : ∃ c ∈ companies, c.email = email)
    (hcheck : r.check = .ok (some (lookupEmails companies email))) :
    (register s email password companyName address phone r).2.2 = .error duplicateEmailError ∧
    (register s email password companyName address phone r).2.1 =
      [.table (emailLookupQuery email)] ∧
    (∀ e p, RemoteCall.signUp e p ∉
      (register s email password companyName address phone r).2.1) ∧
    (∀ q, (RemoteCall.table q ∈ (register s email password companyName address phone r).2.1) →
      q = emailLookupQuery email) := by
  have hpos := lookupEmails_length_pos companies email hrow
  have hcalls : (register s email password companyName address phone r).2.1 =
      [.table (emailLookupQuery email)] := by
    simp [register, registerAfterCheck, hcheck, hpos, settle]
  refine ⟨?_, hcalls, ?_, ?_⟩
  · simp [register, registerAfterCheck, hcheck, hpos, settle]
  · intro e p
    simp [hcalls]
  · intro q hq
    simpa [hcalls] using hq

/-- Witness of C6 (amended): one stored company with the email, a faithful
lookup. -/
theorem register_rejects_duplicate_email_witness :
    (register AuthState.initial "a@b.com" "pw" "Acme" "1 Road" "555"
      { check := .ok (some (lookupEmails
          [{ id := 1, name := "Acme", address := "", city := "", state := "", zip := "",
             phone := "", email := "a@b.com", user_id := 7 }] "a@b.com")),
        signUp := .ok ⟨some ⟨8, "a@b.com"⟩, none⟩,
        insert := .ok (), signOut := .ok () }).2.2 = .error duplicateEmailError :=
  (register_rejects_duplicate_email AuthState.initial "a@b.com" "pw" "Acme" "1 Road" "555"
    { check := .ok (some (lookupEmails
        [{ id := 1, name := "Acme", address := "", city := "", state := "", zip := "",
           phone := "", email := "a@b.com", user_id := 7 }] "a@b.com")),
      signUp := .ok ⟨some ⟨8, "a@b.com"⟩, none⟩,
      insert := .ok (), signOut := .ok () }
    [{ id := 1, name := "Acme", address := "", city := "", state := "", zip := "",
       phone := "", email := "a@b.com", user_id := 7 }]
    ⟨_, List.mem_singleton.mpr rfl, rfl⟩ rfl).1

/-- C7: at the failing input the final `signOut` reports an error, its reply is
discarded, and `register` resolves with the sign-up data although the sign-out
did not go through. -/
theorem register_resolves_when_signOut_reports_error :
    (register AuthState.initial "new@fleet.com" "pw" "Acme" "1 Road" "555"
      { check := .ok (some []),
        signUp := .ok ⟨some ⟨8, "new@fleet.com"⟩, some ⟨some ⟨8, "new@fleet.com"⟩⟩⟩,
        insert := .ok (),
        signOut := .failed ⟨"", "Failed to fetch"⟩ }).2 =
      ([.table (emailLookupQuery "new@fleet.com"), .signUp "new@fleet.com" "pw",
        .table (companyInsertQuery "Acme" 8 "1 Road" "555" "new@fleet.com"), .signOut],
       .ok ⟨some ⟨8, "new@fleet.com"⟩, some ⟨some ⟨8, "new@fleet.com"⟩⟩⟩) := by
  rfl

/-- C8 as stated fails: the duplicate-email lookup reports an error, yet
`register` resolves and the error field stays empty. -/
theorem register_resolves_when_lookup_reports_error :
    (register AuthState.initial "new@fleet.com" "pw" "Acme" "1 Road" "555"
      { check := .failed ⟨"500", "lookup failed"⟩,
        signUp := .ok ⟨some ⟨8, "new@fleet.com"⟩, none⟩,
        insert := .ok (), signOut := .ok () }).2.2 = .ok ⟨some ⟨8, "new@fleet.com"⟩, none⟩ ∧
    (register AuthState.initial "new@fleet.com" "pw" "Acme" "1 Road" "555"
      { check := .failed ⟨"500", "lookup failed"⟩,
        signUp := .ok ⟨some ⟨8, "new@fleet.com"⟩, none⟩,
        insert := .ok (), signOut := .ok () }).1.error = none := by
  constructor <;> rfl

/-- C8 (amended): on a mounted store every rejection of `register` is recorded in
the error field, and `register` rejects with the error when `signUp` or the
company insert reports an error and when any of the four remote steps throws; an
error reported by the duplicate-email lookup is only logged, `register` then
runs as after a lookup that found nothing. -/
theorem register_step_errors_reject (s : AuthState)
    (email password companyName address phone : String) (r : RegisterReplies) (e : Err)
    (hm : s.isMounted = true) :
    ((register s email password companyName address phone r).2.2 = .error e →
      (register s email password companyName address phone r).1.error = some e) ∧
    (r.check = .threw e →
      (register s email password companyName address phone r).2.2 = .error e) ∧
    (lookupPasses r.check = true → (r.signUp = .failed e ∨ r.signUp = .threw e) →
      (register s email password companyName address phone r).2.2 = .error e) ∧
    (∀ data u, lookupPasses r.check = true → r.signUp = .ok data → data.user = some u →
      (r.insert = .failed e ∨ r.insert = .threw e) →
      (register s email password companyName address phone r).2.2 = .error e) ∧
    (∀ data u, lookupPasses r.check = true → r.signUp = .ok data → data.user = some u →
      r.insert = .ok () → r.signOut = .threw e →
      (register s email password companyName address phone r).2.2 = .error e) ∧
    (register s email password companyName address phone { r with check := .failed e } =
      register s email password companyName address phone { r with check := .ok none }) := by
  obtain ⟨check, signUp, insert, signOut⟩ := r
  refine ⟨?_, ?_, ?_, ?_, ?_, ?_⟩
  · rcases check with (_ | _ | ⟨row, rows⟩) | _ | _ <;>
      rcases signUp with ⟨_ | u, sess⟩ | _ | _ <;>
      rcases insert with _ | _ | _ <;>
      rcases signOut with _ | _ | _ <;>
      simp [register, registerBegin, registerAfterCheck, registerAfterSignUp,
        registerAfterInsert, registerAfterSignOut, settle, safeSetError, safeSetLoading,
        hm]
  · intro h
    simp only at h
    subst h
    simp [register, registerAfterCheck, settle]
  · intro hp h
    simp only at hp h
    rcases check with (_ | _ | ⟨row, rows⟩) | _ | _ <;> simp [lookupPasses] at hp <;>
      rcases h with h | h <;> subst h <;>
      simp [register, registerAfterCheck, registerAfterSignUp, settle]
  · intro data u hp hs hu h
    simp only at hp hs h
    subst hs
    rcases check with (_ | _ | ⟨row, rows⟩) | _ | _ <;> simp [lookupPasses] at hp <;>
      rcases h with h | h <;> subst h <;>
      simp [register, registerAfterCheck, registerAfterSignUp, registerAfterInsert, settle, hu]
  · intro data u hp hs hu hi ho
    simp only at hp hs hi ho
    subst hs hi ho
    rcases check with (_ | _ | ⟨row, rows⟩) | _ | _ <;> simp [lookupPasses] at hp <;>
      simp [register, registerAfterCheck, registerAfterSignUp, registerAfterInsert,
        registerAfterSignOut, settle, hu]
  · rcases signUp with ⟨_ | u, sess⟩ | _ | _ <;>
      simp [register, registerAfterCheck, registerAfterSignUp, registerAfterInsert]

/-- Witness of C8 (amended): on the fresh store a reported `signUp` error rejects
and is recorded. -/
theorem register_step_errors_reject_witness :
    AuthState.initial.isMounted = true ∧
    (register AuthState.initial "new@fleet.com" "pw" "Acme" "1 Road" "555"
      { check := .ok (some []), signUp := .failed ⟨"422", "weak password"⟩,
        insert := .ok (), signOut := .ok () }).2.2 = .error ⟨"422", "weak password"⟩ ∧
    (register AuthState.initial "new@fleet.com" "pw" "Acme" "1 Road" "555"
      { check := .ok (some []), signUp := .failed ⟨"422", "weak password"⟩,
        insert := .ok (), signOut := .ok () }).1.error = some ⟨"422", "weak password"⟩ :=
  have h := register_step_errors_reject AuthState.initial "new@fleet.com" "pw" "Acme" "1 Road"
    "555" { check := .ok (some []), signUp := .failed ⟨"422", "weak password"⟩,
            insert := .ok (), signOut := .ok () } ⟨"422", "weak password"⟩ rfl
  ⟨rfl, h.2.2.1 rfl (Or.inl rfl), h.1 (h.2.2.1 rfl (Or.inl rfl))⟩

/-- C9: when `signUp` yields a user and the company insert reports an error,
`register` rejects with that insert error and the insert is its last remote
call: its calls are the lookup, `signUp` and the insert, with no `signOut` and no
compensating request after it. -/
theorem register_insert_error_no_rollback (s : AuthState)
    (email password companyName address phone : String) (r : RegisterReplies)
    (data : AuthData) (u : User) (e : Err)
    (hp : lookupPasses r.check = true) (hs : r.signUp = .ok data)
    (hu : data.user = some u) (hi : r.insert = .failed e) :
    (register s email password companyName address phone r).2.2 = .error e ∧
    (register s email password companyName address phone r).2.1 =
      [.table (emailLookupQuery email), .signUp email password,
       .table (companyInsertQuery companyName u.id address phone email)] ∧
    RemoteCall.signOut ∉ (register s email password companyName address phone r).2.1 := by
  obtain ⟨check, signUp, insert, signOut⟩ := r
  simp only at hp hs hi
  subst hs hi
  rcases check with (_ | _ | ⟨row, rows⟩) | _ | _ <;> simp [lookupPasses] at hp <;>
    simp [register, registerAfterCheck, registerAfterSignUp, registerAfterInsert, settle, hu,
      companyInsertQuery]

/-- Witness of C9: a sign-up that succeeds followed by a refused insert. -/
theorem register_insert_error_no_rollback_witness :
    (register AuthState.initial "new@fleet.com" "pw" "Acme" "1 Road" "555"
      { check := .ok (some []), signUp := .ok ⟨some ⟨8, "new@fleet.com"⟩, none⟩,
        insert := .failed ⟨"23505", "duplicate key"⟩, signOut := .ok () }).2.2
      = .error ⟨"23505", "duplicate key"⟩ ∧
    (register AuthState.initial "new@fleet.com" "pw" "Acme" "1 Road" "555"
      { check := .ok (some []), signUp := .ok ⟨some ⟨8, "new@fleet.com"⟩, none⟩,
        insert := .failed ⟨"23505", "duplicate key"⟩, signOut := .ok () }).2.1
      = [.table (emailLookupQuery "new@fleet.com"), .signUp "new@fleet.com" "pw",
         .table (companyInsertQuery "Acme" 8 "1 Road" "555" "new@fleet.com")] :=
  have h := register_insert_error_no_rollback AuthState.initial "new@fleet.com" "pw" "Acme"
    "1 Road" "555"
    { check := .ok (some []), signUp := .ok ⟨some ⟨8, "new@fleet.com"⟩, none⟩,
      insert := .failed ⟨"23505", "duplicate key"⟩, signOut := .ok () }
    ⟨some ⟨8, "new@fleet.com"⟩, none⟩ ⟨8, "new@fleet.com"⟩ ⟨"23505", "duplicate key"⟩
    rfl rfl rfl rfl
  ⟨h.1, h.2.1⟩

/-- C10 as stated fails: on a mounted store holding a user and a company, a
logout whose sign-out reports an error leaves both in place. -/
theorem logout_keeps_user_when_signOut_reports_error :
    (logout { AuthState.initial with
                user := some ⟨8, "a@b.com"⟩,
                company := some { id := 1, name := "Acme", address := "", city := "",
                                  state := "", zip := "", phone := "", email := "a@b.com",
                                  user_id := 8 },
                initializing := false }
      (.failed ⟨"", "Failed to fetch"⟩)).1.user = some ⟨8, "a@b.com"⟩ ∧
    (logout { AuthState.initial with
                user := some ⟨8, "a@b.com"⟩,
                company := some { id := 1, name := "Acme", address := "", city := "",
                                  state := "", zip := "", phone := "", email := "a@b.com",
                                  user_id := 8 },
                initializing := false }
      (.failed ⟨"", "Failed to fetch"⟩)).1.company ≠ none := by
  constructor
  · rfl
  · simp [logout, logoutBegin, logoutSettle, settle, safeSetError, safeSetLoading,
      AuthState.initial]

/-- C10 (amended): on a mounted store, a logout whose sign-out succeeds ends with
user and company null and resolves; a logout whose sign-out reports an error or
throws rejects with that error, records it, and leaves user and company as they
were. -/
theorem logout_clears_on_success (s : AuthState) (e : Err) (hm : s.isMounted = true) :
    ((logout s (.ok ())).1.user = none ∧ (logout s (.ok ())).1.company = none ∧
      (logout s (.ok ())).2.2 = .ok ()) ∧
    ((logout s (.failed e)).1.user = s.user ∧ (logout s (.failed e)).1.company = s.company ∧
      (logout s (.failed e)).1.error = some e ∧ (logout s (.failed e)).2.2 = .error e) ∧
    ((logout s (.threw e)).1.user = s.user ∧ (logout s (.threw e)).1.company = s.company ∧
      (logout s (.threw e)).1.error = some e ∧ (logout s (.threw e)).2.2 = .error e) := by
  simp [logout, logoutBegin, logoutSettle, settle, safeSetError, safeSetLoading, safeSetUser,
    safeSetCompany, hm]

/-- Witness of C10 (amended): a signed-in mounted store logs out. -/
theorem logout_clears_on_success_witness :
    ({ AuthState.initial with user := some ⟨8, "a@b.com"⟩ } : AuthState).isMounted = true ∧
    (logout { AuthState.initial with user := some ⟨8, "a@b.com"⟩ } (.ok ())).1.user = none :=
  ⟨rfl, (logout_clears_on_success { AuthState.initial with user := some ⟨8, "a@b.com"⟩ }
    ⟨"", ""⟩ rfl).1.1⟩

/-! ## Properties of the pages -/

/-- Row written by the maintenance insert: its `company_id` and `truck_id`
cells. -/
theorem insertedRecord_recordInsertQuery (f : String → String) (v : RecordValues)
    (cid tid : Nat) :
    ∃ row, (RemoteCall.table (recordInsertQuery f v cid tid)).insertedRecord = some row ∧
      row.lookup Column.company_id = some (Val.num cid) ∧
      row.lookup Column.truck_id = some (Val.num tid) :=
  ⟨_, rfl, rfl, rfl⟩

/-- The mileage update writes no maintenance record. -/
theorem insertedRecord_mileageUpdateQuery (tid cid m : Nat) :
    (RemoteCall.table (mileageUpdateQuery tid cid m)).insertedRecord = none := rfl

/-- Calls of `handleSubmit`: none, the insert alone, or the insert followed by
the mileage update, for the session company and the page truck. -/
theorem handleSubmit_calls (f : String → String) (company : Option Company)
    (id : Option Nat) (v : RecordValues) (r : SubmitReplies) (p : AddRecordPage) :
    (handleSubmit f company id v r p).2.1 = [] ∨
    ∃ c t, company = some c ∧ p.truck = some t ∧
      ((handleSubmit f company id v r p).2.1 =
          [.table (recordInsertQuery f v c.id t.id)] ∨
       (handleSubmit f company id v r p).2.1 =
          [.table (recordInsertQuery f v c.id t.id),
           .table (mileageUpdateQuery t.id c.id v.mileage)]) := by
  obtain ⟨ri, ru⟩ := r
  obtain ⟨pt, pl, pe⟩ := p
  rcases company with _ | c
  · left; simp [handleSubmit]
  · rcases pt with _ | t
    · left; simp [handleSubmit]
    · right
      refine ⟨c, t, rfl, rfl, ?_⟩
      rcases ri with _ | _ | _ <;> rcases ru with _ | _ | _ <;>
        simp only [handleSubmit] <;> (try split) <;> simp

/-- Requests of `handleSubmit` are scoped to the session company. -/
theorem handleSubmit_tenantScoped (f : String → String) (company : Option Company)
    (id : Option Nat) (v : RecordValues) (r : SubmitReplies) (p : AddRecordPage) :
    tenantScoped company (handleSubmit f company id v r p).2.1 = true := by
  rcases handleSubmit_calls f company id v r p with h | ⟨c, t, hc, -, h | h⟩
  · simp [h, tenantScoped]
  · subst hc
    rw [h]
    simp [tenantScoped, recordInsertQuery, RemoteCall.readsOrWritesFleet]
  · subst hc
    rw [h]
    simp [tenantScoped, recordInsertQuery, mileageUpdateQuery, RemoteCall.readsOrWritesFleet,
      RemoteCall.hasCompanyFilter]

/-- Records inserted by `handleSubmit` carry the session company and the page
truck. -/
theorem handleSubmit_insertsTagged (f : String → String) (company : Option Company)
    (id : Option Nat) (v : RecordValues) (r : SubmitReplies) (p : AddRecordPage) :
    insertsTagged company p.truck (handleSubmit f company id v r p).2.1 = true := by
  rcases handleSubmit_calls f company id v r p with h | ⟨c, t, hc, ht, h | h⟩
  · simp [h, insertsTagged]
  · obtain ⟨row, h1, h2, h3⟩ := insertedRecord_recordInsertQuery f v c.id t.id
    subst hc
    rw [h, ht]
    simp [insertsTagged, h1, h2, h3]
  · obtain ⟨row, h1, h2, h3⟩ := insertedRecord_recordInsertQuery f v c.id t.id
    subst hc
    rw [h, ht]
    simp [insertsTagged, h1, h2, h3, insertedRecord_mileageUpdateQuery]

/-- Requests of `fetchTruckData` are scoped to the session company. -/
theorem fetchTruckData_tenantScoped (company : Option Company) (id : Option Nat)
    (r : TruckDetailReplies) (p : TruckDetailPage) :
    tenantScoped company (fetchTruckData company id r p).2 = true := by
  obtain ⟨rt, rr⟩ := r
  rcases company with _ | c <;> rcases id with _ | i <;> rcases rt with _ | _ | _ <;>
    rcases rr with _ | _ | _ <;>
    simp [tenantScoped, fetchTruckData, truckByIdQuery, truckRecordsQuery,
      RemoteCall.readsOrWritesFleet, RemoteCall.hasCompanyFilter]

/-- C3: every select, update and delete that `TruckList`, `TruckDetail`,
`AddMaintenanceRecord` and `Dashboard` issue on `trucks` or
`maintenance_records` carries the filter `company_id = company.id`; every
maintenance record inserted by `AddMaintenanceRecord` has `company_id =
company.id` and `truck_id` the id of the page truck, which a successful
`fetchTruck` sets to the row returned by the request filtered on that company. -/
theorem page_requests_tenant_scoped (company : Option Company) (id : Option Nat)
    (toISOString : String → String) :
    (∀ r p, tenantScoped company (fetchTrucks company r p).2 = true) ∧
    (∀ r p, tenantScoped company (fetchTruckData company id r p).2 = true) ∧
    (∀ r p, tenantScoped company (handleDelete company id r p).2.1 = true) ∧
    (∀ r p, tenantScoped company (fetchTruck company id r p).2 = true) ∧
    (∀ v r p, tenantScoped company (handleSubmit toISOString company id v r p).2.1 = true) ∧
    (∀ (r : Reply Unit), tenantScoped company (fetchDashboardDataCalls company r) = true) ∧
    (∀ v r p, insertsTagged company p.truck
      (handleSubmit toISOString company id v r p).2.1 = true) ∧
    (∀ c i t p v r,
      (fetchTruck (some c) (some i) (.ok t) p).1.truck = some t ∧
      (fetchTruck (some c) (some i) (.ok t) p).2 = [.table (truckByIdQuery i c.id)] ∧
      (truckByIdQuery i c.id).filters = [(.id, .num i), (.company_id, .num c.id)] ∧
      insertsTagged (some c) (some t)
        (handleSubmit toISOString (some c) (some i) v r
          (fetchTruck (some c) (some i) (.ok t) p).1).2.1 = true) := by
  refine ⟨?_, fetchTruckData_tenantScoped company id, ?_, ?_,
    handleSubmit_tenantScoped toISOString company id, ?_,
    handleSubmit_insertsTagged toISOString company id, ?_⟩
  · intro r p
    rcases company with _ | c <;> rcases r with _ | _ | _ <;>
      simp [tenantScoped, fetchTrucks, truckListQuery, RemoteCall.readsOrWritesFleet,
        RemoteCall.hasCompanyFilter]
  · intro r p
    rcases company with _ | c <;> rcases r with _ | _ | _ <;>
      simp [tenantScoped, handleDelete, truckDeleteQuery, RemoteCall.readsOrWritesFleet,
        RemoteCall.hasCompanyFilter]
  · intro r p
    rcases company with _ | c <;> rcases id with _ | i <;> rcases r with _ | _ | _ <;>
      simp [tenantScoped, fetchTruck, truckByIdQuery, RemoteCall.readsOrWritesFleet,
        RemoteCall.hasCompanyFilter]
  · intro r
    rcases company with _ | c <;> rcases r with _ | _ | _ <;>
      simp [tenantScoped, fetchDashboardDataCalls, dashboardTrucksQuery,
        dashboardMaintenanceQuery, RemoteCall.readsOrWritesFleet, RemoteCall.hasCompanyFilter]
  · intro c i t p v r
    have ht : (fetchTruck (some c) (some i) (.ok t) p).1.truck = some t := by simp [fetchTruck]
    refine ⟨ht, by simp [fetchTruck], by simp [truckByIdQuery], ?_⟩
    have h := handleSubmit_insertsTagged toISOString (some c) (some i) v r
      (fetchTruck (some c) (some i) (.ok t) p).1
    rw [ht] at h
    exact h

/-- A row satisfies the filters `id = i`, `company_id = cid` exactly when these
are its id and its company. -/
theorem Truck.satisfies_id_company (t : Truck) (i cid : Nat) :
    t.satisfies [(Column.id, Val.num i), (Column.company_id, Val.num cid)] = true ↔
      t.id = i ∧ t.company_id = cid := by
  simp [Truck.satisfies, Truck.cell]

/-- The filtered single-row select finds nothing when no row has both the id and
the company. -/
theorem selectSingleTruck_foreign (trucks : List Truck) (i cid : Nat)
    (h : ∀ t ∈ trucks, t.id = i → t.company_id ≠ cid) :
    selectSingleTruck trucks (truckByIdQuery i cid) = .failed singleRowError := by
  have hnil : trucks.filter (fun t => t.satisfies (truckByIdQuery i cid).filters) = [] := by
    rw [List.filter_eq_nil_iff]
    intro t ht hs
    have hs2 := (Truck.satisfies_id_company t i cid).mp (by simpa [truckByIdQuery] using hs)
    exact h t ht hs2.1 hs2.2
  simp [selectSingleTruck, hnil]

/-- An update or delete filtered on `id` and `company_id` leaves a table without
a matching row as it is. -/
theorem trucksAfter_no_match (trucks : List Truck) (q : Query) (i : Option Nat) (cid : Nat)
    (hf : q.filters = [(Column.id, idVal i), (Column.company_id, Val.num cid)])
    (h : ∀ t ∈ trucks, t.company_id ≠ cid ∨ Val.num t.id ≠ idVal i) :
    trucksAfter trucks (.table q) = trucks := by
  have hns : ∀ t ∈ trucks, t.satisfies q.filters = false := by
    intro t ht
    rw [hf]
    rcases h t ht with h1 | h1
    · simp [Truck.satisfies, Truck.cell, h1]
    · simp [Truck.satisfies, Truck.cell, h1]
  simp only [trucksAfter]
  split
  · split
    · rw [List.map_congr_left (g := fun t => t)]
      · simp
      · intro t ht
        simp [hns t ht]
    · rw [List.filter_eq_self]
      intro t ht
      simp [hns t ht]
    · rfl
  · rfl

/-- The insert of a maintenance record leaves the `trucks` table as it is. -/
theorem trucksAfter_recordInsert (trucks : List Truck) (f : String → String)
    (v : RecordValues) (cid tid : Nat) :
    trucksAfter trucks (.table (recordInsertQuery f v cid tid)) = trucks := by
  simp [trucksAfter, recordInsertQuery]

/-- A row of another company is still stored, unchanged, after a mileage update
filtered on the session company. -/
theorem mem_trucksAfter_mileageUpdate (trucks : List Truck) (row : Truck) (tid cid m : Nat)
    (hmem : row ∈ trucks) (hco : row.company_id ≠ cid) :
    row ∈ trucksAfter trucks (.table (mileageUpdateQuery tid cid m)) := by
  have hns : row.satisfies [(Column.id, Val.num tid), (Column.company_id, Val.num cid)]
      = false := by
    simp [Truck.satisfies, Truck.cell, hco]
  simp only [trucksAfter, mileageUpdateQuery, if_true]
  exact List.mem_map.mpr ⟨row, hmem, by simp [hns]⟩

/-- C4: on a remote `trucks` table with exact equality-filter and single-row
semantics, for a truck id whose row belongs to another company than the session
company, the fetch of `TruckDetail` and of `AddMaintenanceRecord` gets the
single-row error; the page state after it is the state before with the spinner
off and the load-failure message, so on the freshly mounted page the truck is
null and the "Truck not found" panel is shown, nothing of the foreign row is in
the page state, and neither a delete nor a mileage update is issued; whatever
the page state, a delete of that id and the requests of a submission leave the
foreign row stored as it was. -/
theorem foreign_truck_not_found (trucks : List Truck) (c : Company) (i : Nat)
    (foreign : Truck) (hmem : foreign ∈ trucks) (hid : foreign.id = i)
    (huniq : ∀ t ∈ trucks, t.id = i → t = foreign) (hco : foreign.company_id ≠ c.id) :
    selectSingleTruck trucks (truckByIdQuery i c.id) = .failed singleRowError ∧
    (∀ rr p,
      (fetchTruckData (some c) (some i)
          ⟨selectSingleTruck trucks (truckByIdQuery i c.id), rr⟩ p).1 =
        { p with loading := false, error := "Failed to load truck data. Please try again." }) ∧
    (∀ rr,
      (fetchTruckData (some c) (some i)
          ⟨selectSingleTruck trucks (truckByIdQuery i c.id), rr⟩
          TruckDetailPage.initial).1.truck = none ∧
      (fetchTruckData (some c) (some i)
          ⟨selectSingleTruck trucks (truckByIdQuery i c.id), rr⟩
          TruckDetailPage.initial).1.render = .notFound ∧
      ∀ rd, (clickDelete (some c) (some i) rd
          (fetchTruckData (some c) (some i)
            ⟨selectSingleTruck trucks (truckByIdQuery i c.id), rr⟩
            TruckDetailPage.initial).1).2.1 = []) ∧
    (∀ p,
      (fetchTruck (some c) (some i) (selectSingleTruck trucks (truckByIdQuery i c.id)) p).1 =
        { p with loading := false, error := "Failed to load truck data. Please try again." }) ∧
    ((fetchTruck (some c) (some i) (selectSingleTruck trucks (truckByIdQuery i c.id))
        AddRecordPage.initial).1.truck = none ∧
     (fetchTruck (some c) (some i) (selectSingleTruck trucks (truckByIdQuery i c.id))
        AddRecordPage.initial).1.render = .notFound ∧
     ∀ f v r, (handleSubmit f (some c) (some i) v r
        (fetchTruck (some c) (some i) (selectSingleTruck trucks (truckByIdQuery i c.id))
          AddRecordPage.initial).1).2.1 = []) ∧
    (∀ rd p, trucksAfterAll trucks (handleDelete (some c) (some i) rd p).2.1 = trucks) ∧
    (∀ f v r p, foreign ∈ trucksAfterAll trucks (handleSubmit f (some c) (some i) v r p).2.1) := by
  have hall : ∀ t ∈ trucks, t.id = i → t.company_id ≠ c.id := by
    intro t ht hti
    rw [huniq t ht (hid ▸ hti)]
    exact hco
  have hsel := selectSingleTruck_foreign trucks i c.id hall
  refine ⟨hsel, ?_, ?_, ?_, ?_, ?_, ?_⟩
  · intro rr p
    simp [hsel, fetchTruckData]
  · intro rr
    refine ⟨?_, ?_, ?_⟩
    · simp [hsel, fetchTruckData, TruckDetailPage.initial]
    · simp [hsel, fetchTruckData, TruckDetailPage.initial, TruckDetailPage.render]
    · intro rd
      simp [hsel, fetchTruckData, TruckDetailPage.initial, TruckDetailPage.render, clickDelete]
  · intro p
    simp [hsel, fetchTruck]
  · refine ⟨?_, ?_, ?_⟩
    · simp [hsel, fetchTruck, AddRecordPage.initial]
    · simp [hsel, fetchTruck, AddRecordPage.initial, AddRecordPage.render]
    · intro f v r
      simp [hsel, fetchTruck, AddRecordPage.initial, handleSubmit]
  · intro rd p
    have hq : trucksAfter trucks (.table (truckDeleteQuery (some i) c.id)) = trucks := by
      apply trucksAfter_no_match trucks _ (some i) c.id rfl
      intro t ht
      by_cases hti : t.id = i
      · exact Or.inl (hall t ht hti)
      · exact Or.inr (by simpa [idVal] using hti)
    rcases rd with _ | _ | _ <;> simp [handleDelete, trucksAfterAll, hq]
  · intro f v r p
    rcases handleSubmit_calls f (some c) (some i) v r p with h | ⟨c2, t, hc, -, h | h⟩
    · simp [h, trucksAfterAll, hmem]
    · rw [h]
      simp [trucksAfterAll, trucksAfter_recordInsert, hmem]
    · rw [h]
      have hc2 : c2 = c := (Option.some.inj hc).symm
      subst hc2
      simp only [trucksAfterAll, List.foldl, trucksAfter_recordInsert]
      exact mem_trucksAfter_mileageUpdate trucks foreign t.id c2.id v.mileage hmem hco

/-- Witness of C4: company 1 asks for truck 2, whose row belongs to company 9. -/
theorem foreign_truck_not_found_witness :
    (fetchTruckData
        (some { id := 1, name := "Acme", address := "", city := "", state := "", zip := "",
                phone := "", email := "a@b.com", user_id := 8 })
        (some 2)
        ⟨selectSingleTruck
            [{ id := 2, company_id := 9, vin := "V2", license_plate := "P2", year := 2020,
               make := "Volvo", model := "FH", current_mileage := 1000, notes := "" }]
            (truckByIdQuery 2 1), .ok none⟩
        TruckDetailPage.initial).1.render = .notFound :=
  ((foreign_truck_not_found
      [{ id := 2, company_id := 9, vin := "V2", license_plate := "P2", year := 2020,
         make := "Volvo", model := "FH", current_mileage := 1000, notes := "" }]
      { id := 1, name := "Acme", address := "", city := "", state := "", zip := "",
        phone := "", email := "a@b.com", user_id := 8 }
      2
      { id := 2, company_id := 9, vin := "V2", license_plate := "P2", year := 2020,
        make := "Volvo", model := "FH", current_mileage := 1000, notes := "" }
      (List.mem_singleton.mpr rfl) rfl
      (fun t ht _ => List.mem_singleton.mp ht)
      (by decide)).2.2.1 (.ok none)).2.1

/-- Stored mileage of a row of the table whose id is unique. -/
theorem storedMileage_of_mem (trucks : List Truck) (truck : Truck) (hmem : truck ∈ trucks)
    (huniq : ∀ t ∈ trucks, t.id = truck.id → t = truck) :
    storedMileage trucks truck.id = some truck.current_mileage := by
  induction trucks with
  | nil => simp at hmem
  | cons t ts ih =>
    by_cases h : t.id = truck.id
    · have ht : t = truck := huniq t (List.mem_cons_self _ _) h
      simp [storedMileage, List.find?, ht]
    · have hmem2 : truck ∈ ts := by
        rcases List.mem_cons.mp hmem with h1 | h1
        · exact absurd (h1 ▸ rfl) h
        · exact h1
      have ih2 := ih hmem2 (fun x hx => huniq x (List.mem_cons_of_mem _ hx))
      simpa [storedMileage, List.find?, h] using ih2

/-- Stored mileage after the mileage update filtered on the id and the company
of a row of the table whose id is unique: the written value. -/
theorem storedMileage_after_update (trucks : List Truck) (truck : Truck) (cid m : Nat)
    (hmem : truck ∈ trucks) (huniq : ∀ t ∈ trucks, t.id = truck.id → t = truck)
    (hco : truck.company_id = cid) :
    storedMileage (trucksAfter trucks (.table (mileageUpdateQuery truck.id cid m))) truck.id
      = some m := by
  simp only [trucksAfter, mileageUpdateQuery, if_true]
  induction trucks with
  | nil => simp at hmem
  | cons t ts ih =>
    by_cases h : t.id = truck.id
    · have ht : t = truck := huniq t (List.mem_cons_self _ _) h
      subst ht
      have hs : t.satisfies [(Column.id, Val.num t.id), (Column.company_id, Val.num cid)]
          = true := (Truck.satisfies_id_company t t.id cid).mpr ⟨rfl, hco⟩
      simp [storedMileage, List.find?, hs, Truck.write]
    · have hmem2 : truck ∈ ts := by
        rcases List.mem_cons.mp hmem with h1 | h1
        · exact absurd (h1 ▸ rfl) h
        · exact h1
      have ih2 := ih hmem2 (fun x hx => huniq x (List.mem_cons_of_mem _ hx))
      have hns : t.satisfies [(Column.id, Val.num truck.id), (Column.company_id, Val.num cid)]
          = false := by
        simp [Truck.satisfies, Truck.cell, h]
      simpa [storedMileage, List.find?, hns, h] using ih2

/-- C5 as stated fails: the insert succeeds, the record mileage 2000 exceeds the
loaded 1000, the update is issued but reports an error, and the stored mileage
stays 1000, not the maximum 2000. -/
theorem submit_mileage_stale_when_update_fails :
    (handleSubmit (fun d => d)
        (some { id := 1, name := "Acme", address := "", city := "", state := "", zip := "",
                phone := "", email := "a@b.com", user_id := 8 })
        (some 2)
        { maintenance_type := "oil", performed_at := "2024-01-01", mileage := 2000,
          next_due_mileage := none, part_make_model := "", notes := "" }
        { insert := .ok (), update := .failed ⟨"500", "update failed"⟩ }
        { truck := some { id := 2, company_id := 1, vin := "V2", license_plate := "P2",
                          year := 2020, make := "Volvo", model := "FH",
                          current_mileage := 1000, notes := "" },
          loading := false, error := "" }).2.1 =
      [.table (recordInsertQuery (fun d => d)
          { maintenance_type := "oil", performed_at := "2024-01-01", mileage := 2000,
            next_due_mileage := none, part_make_model := "", notes := "" } 1 2),
       .table (mileageUpdateQuery 2 1 2000)] ∧
    storedMileage
      (trucksAfterSubmit
        [{ id := 2, company_id := 1, vin := "V2", license_plate := "P2", year := 2020,
           make := "Volvo", model := "FH", current_mileage := 1000, notes := "" }]
        [.table (recordInsertQuery (fun d => d)
            { maintenance_type := "oil", performed_at := "2024-01-01", mileage := 2000,
              next_due_mileage := none, part_make_model := "", notes := "" } 1 2),
         .table (mileageUpdateQuery 2 1 2000)]
        { insert := .ok (), update := .failed ⟨"500", "update failed"⟩ }) 2 = some 1000 ∧
    max 1000 2000 ≠ 1000 := by
  refine ⟨rfl, rfl, by decide⟩

/-- C5 (amended): for the loaded truck with current mileage `c` and a submitted
record with mileage `m` whose insert succeeds, `handleSubmit` issues after the
insert a truck update setting `current_mileage = m` when `m > c` and no truck
update when `m <= c`; on a remote table with exact filter semantics that stores
the loaded row, when the issued update succeeds too the stored mileage after the
submission is `max c m`. -/
theorem submit_sets_mileage_to_max (f : String → String) (c : Company) (id : Option Nat)
    (v : RecordValues) (r : SubmitReplies) (p : AddRecordPage) (truck : Truck)
    (ht : p.truck = some truck) (hins : r.insert = .ok ()) :
    (v.mileage > truck.current_mileage →
      (handleSubmit f (some c) id v r p).2.1 =
        [.table (recordInsertQuery f v c.id truck.id),
         .table (mileageUpdateQuery truck.id c.id v.mileage)]) ∧
    (v.mileage ≤ truck.current_mileage →
      (handleSubmit f (some c) id v r p).2.1 =
        [.table (recordInsertQuery f v c.id truck.id)]) ∧
    (mileageUpdateQuery truck.id c.id v.mileage).verb =
      .update [(.current_mileage, .num v.mileage)] ∧
    (∀ trucks : List Truck, truck ∈ trucks →
      (∀ t ∈ trucks, t.id = truck.id → t = truck) → truck.company_id = c.id →
      (v.mileage > truck.current_mileage → r.update = .ok ()) →
      storedMileage trucks truck.id = some truck.current_mileage ∧
      storedMileage (trucksAfterSubmit trucks (handleSubmit f (some c) id v r p).2.1 r)
        truck.id = some (max truck.current_mileage v.mileage)) := by
  obtain ⟨ri, ru⟩ := r
  obtain ⟨pt, pl, pe⟩ := p
  simp only at ht hins
  subst ht hins
  have hgt : v.mileage > truck.current_mileage →
      (handleSubmit f (some c) id v ⟨.ok (), ru⟩ ⟨some truck, pl, pe⟩).2.1 =
        [.table (recordInsertQuery f v c.id truck.id),
         .table (mileageUpdateQuery truck.id c.id v.mileage)] := by
    intro h
    rcases ru with _ | _ | _ <;> simp [handleSubmit, h]
  have hle : v.mileage ≤ truck.current_mileage →
      (handleSubmit f (some c) id v ⟨.ok (), ru⟩ ⟨some truck, pl, pe⟩).2.1 =
        [.table (recordInsertQuery f v c.id truck.id)] := by
    intro h
    have h2 : ¬ v.mileage > truck.current_mileage := Nat.not_lt.mpr h
    simp [handleSubmit, h2]
  refine ⟨hgt, hle, rfl, ?_⟩
  intro trucks hmem huniq hco hupd
  refine ⟨storedMileage_of_mem trucks truck hmem huniq, ?_⟩
  by_cases h : v.mileage > truck.current_mileage
  · rw [hgt h]
    have hu : ru = .ok () := hupd h
    subst hu
    simp only [trucksAfterSubmit, Reply.succeeded, List.zip_cons_cons, List.zip_nil_left,
      List.foldl, if_true, trucksAfter_recordInsert]
    rw [storedMileage_after_update trucks truck c.id v.mileage hmem huniq hco]
    have : max truck.current_mileage v.mileage = v.mileage := Nat.max_eq_right (Nat.le_of_lt h)
    rw [this]
  · have h2 : v.mileage ≤ truck.current_mileage := Nat.not_lt.mp h
    rw [hle h2]
    simp only [trucksAfterSubmit, Reply.succeeded, List.zip_cons_cons, List.zip_nil_left,
      List.foldl, if_true, trucksAfter_recordInsert]
    rw [storedMileage_of_mem trucks truck hmem huniq]
    have : max truck.current_mileage v.mileage = truck.current_mileage := Nat.max_eq_left h2
    rw [this]

/-- Witness of C5 (amended): truck 2 of company 1 at 1000 miles, a record at 2000
miles, both requests succeed, and the stored mileage becomes 2000. -/
theorem submit_sets_mileage_to_max_witness :
    storedMileage
      (trucksAfterSubmit
        [{ id := 2, company_id := 1, vin := "V2", license_plate := "P2", year := 2020,
           make := "Volvo", model := "FH", current_mileage := 1000, notes := "" }]
        (handleSubmit (fun d => d)
          (some { id := 1, name := "Acme", address := "", city := "", state := "", zip := "",
                  phone := "", email := "a@b.com", user_id := 8 })
          (some 2)
          { maintenance_type := "oil", performed_at := "2024-01-01", mileage := 2000,
            next_due_mileage := none, part_make_model := "", notes := "" }
          { insert := .ok (), update := .ok () }
          { truck := some { id := 2, company_id := 1, vin := "V2", license_plate := "P2",
                            year := 2020, make := "Volvo", model := "FH",
                            current_mileage := 1000, notes := "" },
            loading := false, error := "" }).2.1
        { insert := .ok (), update := .ok () }) 2 = some (max 1000 2000) :=
  ((submit_sets_mileage_to_max (fun d => d)
      { id := 1, name := "Acme", address := "", city := "", state := "", zip := "",
        phone := "", email := "a@b.com", user_id := 8 }
      (some 2)
      { maintenance_type := "oil", performed_at := "2024-01-01", mileage := 2000,
        next_due_mileage := none, part_make_model := "", notes := "" }
      { insert := .ok (), update := .ok () }
      { truck := some { id := 2, company_id := 1, vin := "V2", license_plate := "P2",
                        year := 2020, make := "Volvo", model := "FH",
                        current_mileage := 1000, notes := "" },
        loading := false, error := "" }
      { id := 2, company_id := 1, vin := "V2", license_plate := "P2", year := 2020,
        make := "Volvo", model := "FH", current_mileage := 1000, notes := "" }
      rfl rfl).2.2.2
    [{ id := 2, company_id := 1, vin := "V2", license_plate := "P2", year := 2020,
       make := "Volvo", model := "FH", current_mileage := 1000, notes := "" }]
    (List.mem_singleton.mpr rfl)
    (fun _ ht _ => List.mem_singleton.mp ht)
    rfl
    (fun _ => rfl)).2

/-! ## Properties of the initialization, the callback and the timeout -/

/-- C12: the loading value exposed to consumers is `loading || initializing`; it
is false exactly when the action flag is down and initialization has ended, and
both guards show the placeholder exactly when one of the two flags is up. -/
theorem exposed_loading_is_loading_or_initializing (s : AuthState) :
    s.value.loading = (s.loading || s.initializing) ∧
    (s.value.loading = false ↔ s.loading = false ∧ s.initializing = false) ∧
    (ProtectedRoute s.value = .loadingFallback "Checking authentication..." ↔
      (s.loading = true ∨ s.initializing = true)) ∧
    (PublicRoute s.value = .loadingFallback "Checking authentication..." ↔
      (s.loading = true ∨ s.initializing = true)) := by
  refine ⟨rfl, ?_, ?_, ?_⟩
  · simp [AuthState.value]
  · cases hl : s.loading <;> cases hi : s.initializing <;>
      cases hu : s.user <;> simp [ProtectedRoute, AuthState.value, hl, hi, hu]
  · cases hl : s.loading <;> cases hi : s.initializing <;>
      cases hu : s.user <;> simp [PublicRoute, AuthState.value, hl, hi, hu]

/-- C13: a session-change event handled by a mounted store ends with `user`
equal to the user of the session (null when the session or its user is absent)
and `initializing` false, and with `company` null when the session has no user;
the first segment writes the user, the second clears `initializing` and leaves
the user alone, in whatever mounted state it resumes. -/
theorem auth_change_replaces_user (s : AuthState) (session : Option Session)
    (rc : Reply Company) (hm : s.isMounted = true) :
    (onAuthStateChange s session rc).1.user = userOf session ∧
    (∀ u, session = some ⟨some u⟩ → (onAuthStateChange s session rc).1.user = some u) ∧
    (session = none ∨ session = some ⟨none⟩ → (onAuthStateChange s session rc).1.user = none) ∧
    (onAuthStateChange s session rc).1.initializing = false ∧
    (userOf session = none → (onAuthStateChange s session rc).1.company = none) ∧
    (authChanged s session).1.user = userOf session ∧
    (∀ s1 : AuthState, s1.isMounted = true →
      (authCompanyLoaded s1 rc).initializing = false ∧
      (authCompanyLoaded s1 rc).user = s1.user) := by
  have huser : (onAuthStateChange s session rc).1.user = userOf session := by
    cases hu : userOf session <;> rcases rc with _ | e | _ <;>
      simp [onAuthStateChange, authChanged, authCompanyLoaded, hu, safeSetUser,
        safeSetCompany, safeSetInitializing, safeSetError, hm] <;>
      split <;> simp [hm]
  refine ⟨huser, ?_, ?_, ?_, ?_, ?_, ?_⟩
  · intro u hs
    rw [huser, hs]
    rfl
  · intro hs
    rw [huser]
    rcases hs with hs | hs <;> rw [hs] <;> rfl
  · cases hu : userOf session <;> rcases rc with _ | e | _ <;>
      simp [onAuthStateChange, authChanged, authCompanyLoaded, hu, safeSetUser,
        safeSetCompany, safeSetInitializing, safeSetError, hm] <;>
      split <;> simp [hm]
  · intro hu
    simp [onAuthStateChange, authChanged, hu, safeSetUser, safeSetCompany,
      safeSetInitializing, hm]
  · cases hu : userOf session <;>
      simp [authChanged, hu, safeSetUser, safeSetCompany, safeSetInitializing, hm]
  · intro s1 h1
    rcases rc with _ | e | _ <;>
      simp [authCompanyLoaded, safeSetCompany, safeSetInitializing, safeSetError, h1] <;>
      split <;> simp [h1]

/-- Witness of C13: the fresh store handles a sign-in notification for user 8
whose company row is found. -/
theorem auth_change_replaces_user_witness :
    AuthState.initial.isMounted = true ∧
    (onAuthStateChange AuthState.initial (some ⟨some ⟨8, "a@b.com"⟩⟩)
      (.ok { id := 1, name := "Acme", address := "", city := "", state := "", zip := "",
             phone := "", email := "a@b.com", user_id := 8 })).1.user
      = some ⟨8, "a@b.com"⟩ ∧
    (onAuthStateChange AuthState.initial (some ⟨some ⟨8, "a@b.com"⟩⟩)
      (.ok { id := 1, name := "Acme", address := "", city := "", state := "", zip := "",
             phone := "", email := "a@b.com", user_id := 8 })).1.initializing = false :=
  have h := auth_change_replaces_user AuthState.initial (some ⟨some ⟨8, "a@b.com"⟩⟩)
    (.ok { id := 1, name := "Acme", address := "", city := "", state := "", zip := "",
           phone := "", email := "a@b.com", user_id := 8 }) rfl
  ⟨rfl, h.2.1 ⟨8, "a@b.com"⟩ rfl, h.2.2.2.1⟩

/-- C14: at the failing input the store holds user 7 with company 1, the
session-change event carries user 8, the company request for user 8 reports a
server error, and after the callback the store pairs user 8 with the company
row of user 7. -/
theorem auth_change_keeps_company_of_previous_user :
    (onAuthStateChange
        { AuthState.initial with
            user := some ⟨7, "a@b.com"⟩,
            company := some { id := 1, name := "Acme", address := "", city := "", state := "",
                              zip := "", phone := "", email := "a@b.com", user_id := 7 },
            initializing := false }
        (some ⟨some ⟨8, "c@d.com"⟩⟩)
        (.failed ⟨"500", "Internal Server Error"⟩)).1.user = some ⟨8, "c@d.com"⟩ ∧
    (onAuthStateChange
        { AuthState.initial with
            user := some ⟨7, "a@b.com"⟩,
            company := some { id := 1, name := "Acme", address := "", city := "", state := "",
                              zip := "", phone := "", email := "a@b.com", user_id := 7 },
            initializing := false }
        (some ⟨some ⟨8, "c@d.com"⟩⟩)
        (.failed ⟨"500", "Internal Server Error"⟩)).1.company =
      some { id := 1, name := "Acme", address := "", city := "", state := "",
             zip := "", phone := "", email := "a@b.com", user_id := 7 } := by
  constructor <;> rfl

/-- On a mounted store, a callback whose company request succeeds or finds no
row ends with that row, or with null, as the company. -/
theorem auth_change_company_when_fetch_answers (s : AuthState) (session : Option Session)
    (u : User) (c : Company) (e : Err) (hm : s.isMounted = true)
    (hu : userOf session = some u) (he : e.code = "PGRST116") :
    (onAuthStateChange s session (.ok c)).1.company = some c ∧
    (onAuthStateChange s session (.failed e)).1.company = none := by
  simp [onAuthStateChange, authChanged, authCompanyLoaded, hu, he, safeSetUser,
    safeSetCompany, safeSetInitializing, hm]

/-- C15: when the company request for a present user reports an error, both the
initial session load and the session-change callback leave the error field as
it was if the code is `PGRST116`, and on a mounted store set it to the reported
error for every other code. -/
theorem company_fetch_error_recording (s : AuthState) (session : Option Session) (u : User)
    (e : Err) (hm : s.isMounted = true) (hu : userOf session = some u) :
    (e.code = "PGRST116" →
      (initialSessionLoad s (.ok session) (.failed e)).1.error = s.error ∧
      (onAuthStateChange s session (.failed e)).1.error = s.error) ∧
    (e.code ≠ "PGRST116" →
      (initialSessionLoad s (.ok session) (.failed e)).1.error = some e ∧
      (onAuthStateChange s session (.failed e)).1.error = some e) ∧
    (∀ s1 : AuthState, e.code = "PGRST116" →
      (initialCompanyLoaded s1 (.failed e)).error = s1.error ∧
      (authCompanyLoaded s1 (.failed e)).error = s1.error) ∧
    (∀ s1 : AuthState, s1.isMounted = true → e.code ≠ "PGRST116" →
      (initialCompanyLoaded s1 (.failed e)).error = some e ∧
      (authCompanyLoaded s1 (.failed e)).error = some e) := by
  refine ⟨?_, ?_, ?_, ?_⟩
  · intro he
    simp [initialSessionLoad, sessionLoaded, initialCompanyLoaded, onAuthStateChange,
      authChanged, authCompanyLoaded, hu, he, safeSetUser, safeSetCompany,
      safeSetInitializing, hm]
  · intro he
    simp [initialSessionLoad, sessionLoaded, initialCompanyLoaded, onAuthStateChange,
      authChanged, authCompanyLoaded, hu, he, safeSetUser, safeSetError,
      safeSetInitializing, hm]
  · intro s1 he
    cases h1 : s1.isMounted <;>
      simp [initialCompanyLoaded, authCompanyLoaded, he, safeSetCompany,
        safeSetInitializing, h1]
  · intro s1 h1 he
    simp [initialCompanyLoaded, authCompanyLoaded, he, safeSetError, safeSetInitializing, h1]

/-- Witness of C15: the fresh store, a session for user 8, a company request
that reports a server error. -/
theorem company_fetch_error_recording_witness :
    AuthState.initial.isMounted = true ∧
    userOf (some ⟨some ⟨8, "a@b.com"⟩⟩) = some ⟨8, "a@b.com"⟩ ∧
    (onAuthStateChange AuthState.initial (some ⟨some ⟨8, "a@b.com"⟩⟩)
      (.failed ⟨"500", "Internal Server Error"⟩)).1.error
      = some ⟨"500", "Internal Server Error"⟩ :=
  ⟨rfl, rfl,
   ((company_fetch_error_recording AuthState.initial (some ⟨some ⟨8, "a@b.com"⟩⟩)
      ⟨8, "a@b.com"⟩ ⟨"500", "Internal Server Error"⟩ rfl rfl).2.1 (by decide)).2⟩

/-- C18: when the safety timeout fires on a mounted store, `initializing` is
false afterwards whatever the state before, the closure of the effect holding
the initial value `true` of the cell (and likewise if it read the current
value). -/
theorem timeout_ends_initialization (s : AuthState) (hm : s.isMounted = true) :
    (step s .loadingTimeout).1.initializing = false ∧
    (loadingTimeout capturedInitializing s).initializing = false ∧
    capturedInitializing = true ∧
    (loadingTimeout s.initializing s).initializing = false := by
  refine ⟨?_, ?_, rfl, ?_⟩
  · simp [step, loadingTimeout, capturedInitializing, AuthState.initial, safeSetInitializing, hm]
  · simp [loadingTimeout, capturedInitializing, AuthState.initial, safeSetInitializing, hm]
  · cases hi : s.initializing <;> simp [loadingTimeout, safeSetInitializing, hm, hi]

/-- Witness of C18: the timeout fires after the first effect run, the session
fetch still pending and no session-change event handled. -/
theorem timeout_ends_initialization_witness :
    (effectRun AuthState.initial).1.isMounted = true ∧
    (effectRun AuthState.initial).1.initializing = true ∧
    (step (effectRun AuthState.initial).1 .loadingTimeout).1.initializing = false :=
  ⟨rfl, rfl, (timeout_ends_initialization (effectRun AuthState.initial).1 rfl).1⟩

/-! ## Frame lemmas of the store operations -/

/-- Exit of an operation: only `error` and `loading` can change; nothing changes
on a torn-down store, and `loading` ends false on a mounted one. -/
theorem settle_frame {α : Type} (s : AuthState) (calls : List RemoteCall)
    (res : Except Err α) :
    (settle s calls res).1.user = s.user ∧
    (settle s calls res).1.company = s.company ∧
    (settle s calls res).1.initializing = s.initializing ∧
    (settle s calls res).1.isMounted = s.isMounted ∧
    (settle s calls res).1.initAttempted = s.initAttempted ∧
    (settle s calls res).2.1 = calls ∧
    (s.isMounted = false → (settle s calls res).1 = s) ∧
    (s.isMounted = true → (settle s calls res).1.loading = false) := by
  rcases res with e | a <;> cases h : s.isMounted <;>
    simp [settle, safeSetLoading, safeSetError, h]

/-- Every path of `register` from the reply of the lookup on ends in the common
exit, and issues no `getSession`. -/
theorem registerAfterCheck_eq_settle (s : AuthState) (calls : List RemoteCall)
    (email password companyName address phone : String) (r : RegisterReplies) :
    ∃ calls2 res,
      registerAfterCheck s calls email password companyName address phone r =
        settle s calls2 res ∧
      (RemoteCall.getSession ∈ calls2 → RemoteCall.getSession ∈ calls) := by
  obtain ⟨check, signUp, insert, signOut⟩ := r
  rcases check with (_ | _ | ⟨row, rows⟩) | _ | _ <;>
    rcases signUp with ⟨_ | u, sess⟩ | _ | _ <;>
    rcases insert with _ | _ | _ <;>
    rcases signOut with _ | _ | _ <;>
    simp only [registerAfterCheck, registerAfterSignUp, registerAfterInsert,
      registerAfterSignOut, List.length_nil, List.length_cons, gt_iff_lt, lt_self_iff_false,
      Nat.zero_lt_succ, if_true, if_false] <;>
    exact ⟨_, _, rfl, by simp⟩

/-- Second segment of `login` ends in the common exit with the same calls. -/
theorem loginSettle_eq_settle (s : AuthState) (calls : List RemoteCall) (r : Reply AuthData) :
    ∃ res, loginSettle s calls r = settle s calls res := by
  rcases r with d | e | e
  · exact ⟨.ok d, rfl⟩
  · exact ⟨.error e, rfl⟩
  · exact ⟨.error e, rfl⟩

/-- Second segment of `logout` ends in the common exit, after clearing user and
company when the sign-out succeeded. -/
theorem logoutSettle_eq_settle (s : AuthState) (calls : List RemoteCall) (r : Reply Unit) :
    ∃ res, logoutSettle s calls r = settle s calls res ∨
      logoutSettle s calls r = settle (safeSetCompany (safeSetUser s none) none) calls res := by
  rcases r with d | e | e
  · exact ⟨.ok (), Or.inr rfl⟩
  · exact ⟨.error e, Or.inl rfl⟩
  · exact ⟨.error e, Or.inl rfl⟩

/-- On a torn-down store no step other than a run of the initialization effect
changes the state. -/
theorem step_unmounted (s : AuthState) (e : StoreEvent) (hm : s.isMounted = false)
    (he : e ≠ .effectRun) : (step s e).1 = s := by
  cases e with
  | effectRun => exact absurd rfl he
  | effectCleanup =>
    obtain ⟨u, c, l, i, er, m, a⟩ := s
    simp only at hm
    subst hm
    rfl
  | sessionLoaded r =>
    rcases r with session | _ | _
    · cases hu : userOf session <;>
        simp [step, sessionLoaded, hu, safeSetUser, safeSetInitializing, hm]
    · simp [step, sessionLoaded, safeSetError, safeSetInitializing, hm]
    · simp [step, sessionLoaded, safeSetError, safeSetInitializing, hm]
  | initialCompanyLoaded r =>
    rcases r with _ | ce | _
    · simp [step, initialCompanyLoaded, safeSetCompany, safeSetInitializing, hm]
    · by_cases hc : ce.code = "PGRST116" <;>
        simp [step, initialCompanyLoaded, hc, safeSetError, safeSetInitializing, hm]
    · simp [step, initialCompanyLoaded, safeSetError, safeSetInitializing, hm]
  | loadingTimeout => simp [step, loadingTimeout, hm]
  | authChanged session =>
    cases hu : userOf session <;>
      simp [step, authChanged, hu, safeSetUser, safeSetCompany, safeSetInitializing, hm]
  | authCompanyLoaded r =>
    rcases r with _ | ce | _
    · simp [step, authCompanyLoaded, safeSetCompany, safeSetInitializing, hm]
    · by_cases hc : ce.code = "PGRST116" <;>
        simp [step, authCompanyLoaded, hc, safeSetError, safeSetCompany,
          safeSetInitializing, hm]
    · simp [step, authCompanyLoaded, safeSetError, safeSetInitializing, hm]
  | loginBegin email password => simp [step, loginBegin, safeSetError, safeSetLoading, hm]
  | loginSettle r =>
    obtain ⟨res, h⟩ := loginSettle_eq_settle s [] r
    simp only [step, h]
    exact (settle_frame s [] res).2.2.2.2.2.2.1 hm
  | registerBegin email => simp [step, registerBegin, safeSetError, safeSetLoading, hm]
  | registerResume email password companyName address phone r =>
    obtain ⟨calls2, res, h, -⟩ :=
      registerAfterCheck_eq_settle s [] email password companyName address phone r
    simp only [step, h]
    exact (settle_frame s calls2 res).2.2.2.2.2.2.1 hm
  | logoutBegin => simp [step, logoutBegin, safeSetLoading, hm]
  | logoutSettle r =>
    have hs : safeSetCompany (safeSetUser s none) none = s := by
      simp [safeSetCompany, safeSetUser, hm]
    obtain ⟨res, h | h⟩ := logoutSettle_eq_settle s [] r
    · simp only [step, h]
      exact (settle_frame s [] res).2.2.2.2.2.2.1 hm
    · simp only [step, h, hs]
      exact (settle_frame s [] res).2.2.2.2.2.2.1 hm
  | setCompany data => simp [step, safeSetCompany, hm]

/-- Flags under a step other than a run of the initialization effect: the
attempted-flag is kept, no `getSession` is issued, and `initializing` is kept
unless the step is a reply of the session load, a session-change notification
or the timeout. -/
theorem step_flags (s : AuthState) (e : StoreEvent) (he : e ≠ .effectRun) :
    (step s e).1.initAttempted = s.initAttempted ∧
    RemoteCall.getSession ∉ (step s e).2 ∧
    (e.settlesInitialization = false → (step s e).1.initializing = s.initializing) := by
  cases e with
  | effectRun => exact absurd rfl he
  | effectCleanup => simp [step, effectCleanup]
  | sessionLoaded r =>
    rcases r with session | _ | _
    · cases hu : userOf session <;> cases hm : s.isMounted <;>
        simp [step, sessionLoaded, hu, safeSetUser, safeSetInitializing, hm,
          StoreEvent.settlesInitialization]
    · cases hm : s.isMounted <;>
        simp [step, sessionLoaded, safeSetError, safeSetInitializing, hm,
          StoreEvent.settlesInitialization]
    · cases hm : s.isMounted <;>
        simp [step, sessionLoaded, safeSetError, safeSetInitializing, hm,
          StoreEvent.settlesInitialization]
  | initialCompanyLoaded r =>
    rcases r with _ | ce | _
    · cases hm : s.isMounted <;>
        simp [step, initialCompanyLoaded, safeSetCompany, safeSetInitializing, hm,
          StoreEvent.settlesInitialization]
    · by_cases hc : ce.code = "PGRST116" <;> cases hm : s.isMounted <;>
        simp [step, initialCompanyLoaded, hc, safeSetError, safeSetInitializing, hm,
          StoreEvent.settlesInitialization]
    · cases hm : s.isMounted <;>
        simp [step, initialCompanyLoaded, safeSetError, safeSetInitializing, hm,
          StoreEvent.settlesInitialization]
  | loadingTimeout =>
    cases hm : s.isMounted <;>
      simp [step, loadingTimeout, capturedInitializing, AuthState.initial,
        safeSetInitializing, hm, StoreEvent.settlesInitialization]
  | authChanged session =>
    cases hu : userOf session <;> cases hm : s.isMounted <;>
      simp [step, authChanged, hu, safeSetUser, safeSetCompany, safeSetInitializing, hm,
        StoreEvent.settlesInitialization]
  | authCompanyLoaded r =>
    rcases r with _ | ce | _
    · cases hm : s.isMounted <;>
        simp [step, authCompanyLoaded, safeSetCompany, safeSetInitializing, hm,
          StoreEvent.settlesInitialization]
    · by_cases hc : ce.code = "PGRST116" <;> cases hm : s.isMounted <;>
        simp [step, authCompanyLoaded, hc, safeSetError, safeSetCompany,
          safeSetInitializing, hm, StoreEvent.settlesInitialization]
    · cases hm : s.isMounted <;>
        simp [step, authCompanyLoaded, safeSetError, safeSetInitializing, hm,
          StoreEvent.settlesInitialization]
  | loginBegin email password =>
    cases hm : s.isMounted <;> simp [step, loginBegin, safeSetError, safeSetLoading, hm]
  | loginSettle r =>
    obtain ⟨res, h⟩ := loginSettle_eq_settle s [] r
    have hf := settle_frame s [] res
    simp only [step, h]
    exact ⟨hf.2.2.2.2.1, by simp, fun _ => hf.2.2.1⟩
  | registerBegin email =>
    cases hm : s.isMounted <;>
      simp [step, registerBegin, safeSetError, safeSetLoading, hm]
  | registerResume email password companyName address phone r =>
    obtain ⟨calls2, res, h, hg⟩ :=
      registerAfterCheck_eq_settle s [] email password companyName address phone r
    have hf := settle_frame s calls2 res
    simp only [step, h]
    refine ⟨hf.2.2.2.2.1, ?_, fun _ => hf.2.2.1⟩
    rw [hf.2.2.2.2.2.1]
    intro hmem
    simpa using hg hmem
  | logoutBegin => cases hm : s.isMounted <;> simp [step, logoutBegin, safeSetLoading, hm]
  | logoutSettle r =>
    obtain ⟨res, h | h⟩ := logoutSettle_eq_settle s [] r
    · have hf := settle_frame s [] res
      simp only [step, h]
      exact ⟨hf.2.2.2.2.1, by simp, fun _ => hf.2.2.1⟩
    · have hf := settle_frame (safeSetCompany (safeSetUser s none) none) [] res
      simp only [step, h]
      refine ⟨?_, by simp, fun _ => ?_⟩
      · rw [hf.2.2.2.2.1]
        cases hm : s.isMounted <;> simp [safeSetCompany, safeSetUser, hm]
      · rw [hf.2.2.1]
        cases hm : s.isMounted <;> simp [safeSetCompany, safeSetUser, hm]
  | setCompany data => cases hm : s.isMounted <;> simp [step, safeSetCompany, hm]

/-- A run of the initialization effect that finds the attempted-flag set issues
no call and clears `initializing`; the first run sets the flag, issues the one
`getSession` and leaves `initializing` set. -/
theorem effectRun_cases (s : AuthState) :
    (s.initAttempted = true →
      (effectRun s).2 = [] ∧ (effectRun s).1.initAttempted = true ∧
      (effectRun s).1.initializing = false) ∧
    (s.initAttempted = false →
      (effectRun s).2 = [.getSession] ∧ (effectRun s).1.initAttempted = true ∧
      (effectRun s).1.initializing = true) ∧
    (effectRun s).1.isMounted = true := by
  cases ha : s.initAttempted <;> simp [effectRun, safeSetInitializing, ha]

/-- Once the attempted-flag is set no sequence of steps issues `getSession`. -/
theorem run_no_getSession_after_attempt (evs : List StoreEvent) (s : AuthState)
    (ha : s.initAttempted = true) :
    (run s evs).2.count RemoteCall.getSession = 0 := by
  induction evs generalizing s with
  | nil => simp [run]
  | cons e es ih =>
    simp only [run, List.count_append]
    by_cases he : e = .effectRun
    · subst he
      have hc := (effectRun_cases s).1 ha
      have h2 := ih (step s .effectRun).1 (by simpa [step] using hc.2.1)
      simp only [step] at h2 ⊢
      rw [h2, hc.1]
      simp
    · have hf := step_flags s e he
      have h2 := ih (step s e).1 (by rw [hf.1]; exact ha)
      rw [h2, List.count_eq_zero.mpr hf.2.1]

/-- Counting `getSession` along any sequence of steps from any state gives at
most one. -/
theorem run_getSession_le_one (evs : List StoreEvent) (s : AuthState) :
    (run s evs).2.count RemoteCall.getSession ≤ 1 := by
  induction evs generalizing s with
  | nil => simp [run]
  | cons e es ih =>
    simp only [run, List.count_append]
    by_cases he : e = .effectRun
    · subst he
      cases ha : s.initAttempted
      · have hc := (effectRun_cases s).2.1 ha
        have h2 := run_no_getSession_after_attempt es (step s .effectRun).1
          (by simpa [step] using hc.2.1)
        simp only [step] at h2 ⊢
        rw [h2, hc.1]
        simp
      · have hc := (effectRun_cases s).1 ha
        have h2 := ih (step s .effectRun).1
        simp only [step] at h2 ⊢
        rw [hc.1]
        simpa using h2
    · have hf := step_flags s e he
      have h2 := ih (step s e).1
      rw [List.count_eq_zero.mpr hf.2.1]
      simpa using h2

/-- C17: along every sequence of steps of one store, and so for every number of
runs of its initialization effect, the remote `getSession` is issued at most
once: the first run sets the attempted-flag and issues the call, every run that
finds the flag set returns without a call, and no other step issues it. -/
theorem getSession_at_most_once (evs : List StoreEvent) (n : Nat) :
    (run AuthState.initial evs).2.count RemoteCall.getSession ≤ 1 ∧
    (run AuthState.initial (List.replicate n .effectRun)).2.count RemoteCall.getSession ≤ 1 ∧
    ((effectRun AuthState.initial).2 = [.getSession] ∧
      (effectRun AuthState.initial).1.initAttempted = true) ∧
    (∀ s : AuthState, s.initAttempted = true →
      (effectRun s).2 = [] ∧ (effectRun s).1.initAttempted = true) ∧
    (∀ (s : AuthState) (e : StoreEvent), e ≠ .effectRun →
      RemoteCall.getSession ∉ (step s e).2 ∧ (step s e).1.initAttempted = s.initAttempted) :=
  ⟨run_getSession_le_one evs AuthState.initial,
   run_getSession_le_one _ AuthState.initial,
   ⟨rfl, rfl⟩,
   fun s ha => ⟨((effectRun_cases s).1 ha).1, ((effectRun_cases s).1 ha).2.1⟩,
   fun s e he => ⟨(step_flags s e he).2.1, (step_flags s e he).1⟩⟩

/-- While `initializing` is set, it stays set along steps that are neither a
reply of the session load, a session-change notification nor the timeout, as
long as the initialization effect runs at most once, and not at all when the
attempted-flag is already set. -/
theorem run_keeps_initializing (evs : List StoreEvent) (s : AuthState)
    (hi : s.initializing = true)
    (hs : ∀ e ∈ evs, e.settlesInitialization = false)
    (h1 : evs.count .effectRun ≤ 1)
    (h0 : s.initAttempted = true → evs.count .effectRun = 0) :
    (run s evs).1.initializing = true := by
  induction evs generalizing s with
  | nil => simpa [run] using hi
  | cons e es ih =>
    simp only [run]
    have hs2 : ∀ x ∈ es, x.settlesInitialization = false :=
      fun x hx => hs x (List.mem_cons_of_mem _ hx)
    by_cases he : e = .effectRun
    · subst he
      have hcount : es.count .effectRun = 0 := by
        simp [List.count_cons] at h1
        exact h1
      have ha : s.initAttempted = false := by
        cases h : s.initAttempted
        · rfl
        · have := h0 h
          simp [List.count_cons] at this
      have hc := (effectRun_cases s).2.1 ha
      apply ih
      · simpa [step] using hc.2.2
      · exact hs2
      · omega
      · intro _
        exact hcount
    · have hf := step_flags s e he
      have hcount : (e :: es).count .effectRun = es.count .effectRun := by
        simp [List.count_cons, he]
      apply ih
      · rw [hf.2.2 (hs e (List.mem_cons_self _ _))]
        exact hi
      · exact hs2
      · omega
      · intro h
        rw [hf.1] at h
        have := h0 h
        omega

/-- C16 as stated fails: the effect runs, is torn down and runs again (as under
`React.StrictMode`); the one `getSession` is still pending, no session-change
event was handled and no timeout fired, yet the second run cleared
`initializing`, the exposed loading flag is false and `ProtectedRoute`
redirects to `/login`. -/
theorem guards_settle_after_effect_rerun :
    (run AuthState.initial [.effectRun, .effectCleanup, .effectRun]).2 = [.getSession] ∧
    (∀ e ∈ [StoreEvent.effectRun, StoreEvent.effectCleanup, StoreEvent.effectRun],
      e.settlesInitialization = false) ∧
    (run AuthState.initial [.effectRun, .effectCleanup, .effectRun]).1.initializing = false ∧
    (run AuthState.initial [.effectRun, .effectCleanup, .effectRun]).1.value.loading = false ∧
    ProtectedRoute (run AuthState.initial [.effectRun, .effectCleanup, .effectRun]).1.value
      = .navigate "/login" := by
  refine ⟨rfl, by decide, rfl, rfl, rfl⟩

/-- C16 (amended): from the initial state, along steps that are neither a reply
of the session load, a handled session-change event nor the timeout, and with at
most one run of the initialization effect, `initializing` stays set, the exposed
loading flag stays true and both guards show the placeholder; the only other
way `initializing` is cleared is a re-run of the effect that finds the
attempted-flag set. -/
theorem initializing_held_until_settled_or_rerun (evs : List StoreEvent)
    (hs : ∀ e ∈ evs, e.settlesInitialization = false)
    (h1 : evs.count .effectRun ≤ 1) :
    (run AuthState.initial evs).1.initializing = true ∧
    (run AuthState.initial evs).1.value.loading = true ∧
    ProtectedRoute (run AuthState.initial evs).1.value
      = .loadingFallback "Checking authentication..." ∧
    PublicRoute (run AuthState.initial evs).1.value
      = .loadingFallback "Checking authentication..." ∧
    (∀ s : AuthState, s.initAttempted = true → (effectRun s).1.initializing = false) := by
  have hi := run_keeps_initializing evs AuthState.initial rfl hs h1
    (fun h => absurd h (by decide))
  refine ⟨hi, ?_, ?_, ?_, fun s ha => ((effectRun_cases s).1 ha).2.2⟩
  · simp [AuthState.value, hi]
  · simp [ProtectedRoute, AuthState.value, hi]
  · simp [PublicRoute, AuthState.value, hi]

/-- Witness of C16 (amended): one effect run followed by the start of a login. -/
theorem initializing_held_until_settled_or_rerun_witness :
    (run AuthState.initial [.effectRun, .loginBegin "a@b.com" "pw"]).1.initializing = true ∧
    ProtectedRoute (run AuthState.initial [.effectRun, .loginBegin "a@b.com" "pw"]).1.value
      = .loadingFallback "Checking authentication..." :=
  have h := initializing_held_until_settled_or_rerun
    [.effectRun, .loginBegin "a@b.com" "pw"] (by decide) (by decide)
  ⟨h.1, h.2.2.1⟩

/-- On a torn-down store every sequence of steps without a run of the
initialization effect leaves the state as it is. -/
theorem run_unmounted (evs : List StoreEvent) (s : AuthState) (hm : s.isMounted = false)
    (he : ∀ e ∈ evs, e ≠ .effectRun) : (run s evs).1 = s := by
  induction evs generalizing s with
  | nil => rfl
  | cons e es ih =>
    have h1 := step_unmounted s e hm (he e (List.mem_cons_self _ _))
    simp only [run, h1]
    exact ih s hm (fun x hx => he x (List.mem_cons_of_mem _ hx))

/-- On a torn-down store `register` changes nothing, from whichever of its
awaits it resumes. -/
theorem register_unmounted (s : AuthState) (calls : List RemoteCall)
    (email companyName address phone : String) (data : AuthData) (r : RegisterReplies)
    (hm : s.isMounted = false) :
    registerBegin s = s ∧
    (registerAfterSignUp s calls email companyName address phone r).1 = s ∧
    (registerAfterInsert s calls data r).1 = s ∧
    (registerAfterSignOut s calls data r.signOut).1 = s := by
  obtain ⟨check, signUp, insert, signOut⟩ := r
  refine ⟨by simp [registerBegin, safeSetError, safeSetLoading, hm], ?_, ?_, ?_⟩
  · rcases signUp with ⟨_ | u, sess⟩ | _ | _ <;> rcases insert with _ | _ | _ <;>
      rcases signOut with _ | _ | _ <;>
      simp [registerAfterSignUp, registerAfterInsert, registerAfterSignOut, settle,
        safeSetError, safeSetLoading, hm]
  · rcases insert with _ | _ | _ <;> rcases signOut with _ | _ | _ <;>
      simp [registerAfterInsert, registerAfterSignOut, settle, safeSetError,
        safeSetLoading, hm]
  · rcases signOut with _ | _ | _ <;>
      simp [registerAfterSignOut, settle, safeSetError, safeSetLoading, hm]

/-- C19: on a torn-down store (liveness flag false) no step of any operation
changes the state, hence none changes user, company, loading, initializing or
error: not the continuation of the session fetch, the session-change callback,
the timeout, a segment of login, register or logout, nor the exposed
`setCompany`; this holds along every sequence of steps until the
initialization effect runs again. -/
theorem torn_down_store_is_frozen (s : AuthState) (hm : s.isMounted = false) :
    (∀ e : StoreEvent, e ≠ .effectRun → (step s e).1 = s) ∧
    (∀ evs : List StoreEvent, (∀ e ∈ evs, e ≠ .effectRun) →
      (run s evs).1.user = s.user ∧ (run s evs).1.company = s.company ∧
      (run s evs).1.loading = s.loading ∧ (run s evs).1.initializing = s.initializing ∧
      (run s evs).1.error = s.error) ∧
    (∀ rs rc, (sessionLoaded s rs).1 = s ∧ initialCompanyLoaded s rc = s ∧
      (initialSessionLoad s rs rc).1 = s) ∧
    (∀ session rc, (authChanged s session).1 = s ∧ authCompanyLoaded s rc = s ∧
      (onAuthStateChange s session rc).1 = s) ∧
    (∀ captured, loadingTimeout captured s = s) ∧
    (∀ email password calls r, loginBegin s = s ∧ (loginSettle s calls r).1 = s ∧
      (login s email password r).1 = s) ∧
    (∀ email password companyName address phone calls data r,
      registerBegin s = s ∧
      (registerAfterCheck s calls email password companyName address phone r).1 = s ∧
      (registerAfterSignUp s calls email companyName address phone r).1 = s ∧
      (registerAfterInsert s calls data r).1 = s ∧
      (registerAfterSignOut s calls data r.signOut).1 = s ∧
      (register s email password companyName address phone r).1 = s) ∧
    (∀ calls r, logoutBegin s = s ∧ (logoutSettle s calls r).1 = s ∧ (logout s r).1 = s) ∧
    (∀ data, safeSetCompany s data = s) := by
  have hsl : ∀ rs, (sessionLoaded s rs).1 = s := fun rs =>
    step_unmounted s (.sessionLoaded rs) hm (by simp)
  have hicl : ∀ rc, initialCompanyLoaded s rc = s := fun rc =>
    step_unmounted s (.initialCompanyLoaded rc) hm (by simp)
  have hac : ∀ session, (authChanged s session).1 = s := fun session =>
    step_unmounted s (.authChanged session) hm (by simp)
  have hacl : ∀ rc, authCompanyLoaded s rc = s := fun rc =>
    step_unmounted s (.authCompanyLoaded rc) hm (by simp)
  have hlb : loginBegin s = s := step_unmounted s (.loginBegin "" "") hm (by simp)
  have hls : ∀ calls r, (loginSettle s calls r).1 = s := by
    intro calls r
    obtain ⟨res, h⟩ := loginSettle_eq_settle s calls r
    rw [h]
    exact (settle_frame s calls res).2.2.2.2.2.2.1 hm
  have hrb : registerBegin s = s := step_unmounted s (.registerBegin "") hm (by simp)
  have hrc : ∀ calls email password companyName address phone r,
      (registerAfterCheck s calls email password companyName address phone r).1 = s := by
    intro calls email password companyName address phone r
    obtain ⟨calls2, res, h, -⟩ :=
      registerAfterCheck_eq_settle s calls email password companyName address phone r
    rw [h]
    exact (settle_frame s calls2 res).2.2.2.2.2.2.1 hm
  have hob : logoutBegin s = s := step_unmounted s .logoutBegin hm (by simp)
  have hos : ∀ calls r, (logoutSettle s calls r).1 = s := by
    intro calls r
    have hs : safeSetCompany (safeSetUser s none) none = s := by
      simp [safeSetCompany, safeSetUser, hm]
    obtain ⟨res, h | h⟩ := logoutSettle_eq_settle s calls r
    · rw [h]
      exact (settle_frame s calls res).2.2.2.2.2.2.1 hm
    · rw [h, hs]
      exact (settle_frame s calls res).2.2.2.2.2.2.1 hm
  refine ⟨fun e he => step_unmounted s e hm he, ?_, ?_, ?_, ?_, ?_, ?_, ?_, ?_⟩
  · intro evs he
    rw [run_unmounted evs s hm he]
    exact ⟨rfl, rfl, rfl, rfl, rfl⟩
  · intro rs rc
    refine ⟨hsl rs, hicl rc, ?_⟩
    simp only [initialSessionLoad]
    split
    · exact hsl rs
    · simp only [hsl rs]
      exact hicl rc
  · intro session rc
    refine ⟨hac session, hacl rc, ?_⟩
    simp only [onAuthStateChange]
    split
    · exact hac session
    · simp only [hac session]
      exact hacl rc
  · intro captured
    simp [loadingTimeout, hm]
  · intro email password calls r
    refine ⟨hlb, hls calls r, ?_⟩
    simp only [login, hlb]
    exact hls _ r
  · intro email password companyName address phone calls data r
    have hr := register_unmounted s calls email companyName address phone data r hm
    refine ⟨hrb, hrc calls email password companyName address phone r, hr.2.1, hr.2.2.1,
      hr.2.2.2, ?_⟩
    simp only [register, hrb]
    exact hrc _ email password companyName address phone r
  · intro calls r
    refine ⟨hob, hos calls r, ?_⟩
    simp only [logout, hob]
    exact hos _ r
  · intro data
    simp [safeSetCompany, hm]

/-- Witness of C19: the store torn down after its first effect run, then the
pending session fetch resolves with a session and a notification arrives. -/
theorem torn_down_store_is_frozen_witness :
    (effectCleanup (effectRun AuthState.initial).1).isMounted = false ∧
    (run (effectCleanup (effectRun AuthState.initial).1)
      [.sessionLoaded (.ok (some ⟨some ⟨8, "a@b.com"⟩⟩)),
       .authChanged (some ⟨some ⟨8, "a@b.com"⟩⟩), .loadingTimeout]).1.user
      = (effectCleanup (effectRun AuthState.initial).1).user :=
  ⟨rfl,
   ((torn_down_store_is_frozen (effectCleanup (effectRun AuthState.initial).1) rfl).2.1
      [.sessionLoaded (.ok (some ⟨some ⟨8, "a@b.com"⟩⟩)),
       .authChanged (some ⟨some ⟨8, "a@b.com"⟩⟩), .loadingTimeout]
      (by decide)).1⟩

/-- The action loading flag is written only by the segments of login, register
and logout: the effect, the session load, the callback, the timeout and
`setCompany` keep it. -/
theorem step_keeps_loading (s : AuthState) (e : StoreEvent) (he : e.isAction = false) :
    (step s e).1.loading = s.loading := by
  cases e with
  | effectRun =>
    cases ha : s.initAttempted <;> simp [step, effectRun, safeSetInitializing, ha]
  | effectCleanup => simp [step, effectCleanup]
  | sessionLoaded r =>
    rcases r with session | _ | _
    · cases hu : userOf session <;> cases hm : s.isMounted <;>
        simp [step, sessionLoaded, hu, safeSetUser, safeSetInitializing, hm]
    · cases hm : s.isMounted <;>
        simp [step, sessionLoaded, safeSetError, safeSetInitializing, hm]
    · cases hm : s.isMounted <;>
        simp [step, sessionLoaded, safeSetError, safeSetInitializing, hm]
  | initialCompanyLoaded r =>
    rcases r with _ | ce | _
    · cases hm : s.isMounted <;>
        simp [step, initialCompanyLoaded, safeSetCompany, safeSetInitializing, hm]
    · by_cases hc : ce.code = "PGRST116" <;> cases hm : s.isMounted <;>
        simp [step, initialCompanyLoaded, hc, safeSetError, safeSetInitializing, hm]
    · cases hm : s.isMounted <;>
        simp [step, initialCompanyLoaded, safeSetError, safeSetInitializing, hm]
  | loadingTimeout =>
    cases hm : s.isMounted <;>
      simp [step, loadingTimeout, capturedInitializing, AuthState.initial,
        safeSetInitializing, hm]
  | authChanged session =>
    cases hu : userOf session <;> cases hm : s.isMounted <;>
      simp [step, authChanged, hu, safeSetUser, safeSetCompany, safeSetInitializing, hm]
  | authCompanyLoaded r =>
    rcases r with _ | ce | _
    · cases hm : s.isMounted <;>
        simp [step, authCompanyLoaded, safeSetCompany, safeSetInitializing, hm]
    · by_cases hc : ce.code = "PGRST116" <;> cases hm : s.isMounted <;>
        simp [step, authCompanyLoaded, hc, safeSetError, safeSetCompany,
          safeSetInitializing, hm]
    · cases hm : s.isMounted <;>
        simp [step, authCompanyLoaded, safeSetError, safeSetInitializing, hm]
  | setCompany data => cases hm : s.isMounted <;> simp [step, safeSetCompany, hm]
  | loginBegin _ _ => simp [StoreEvent.isAction] at he
  | loginSettle _ => simp [StoreEvent.isAction] at he
  | registerBegin _ => simp [StoreEvent.isAction] at he
  | registerResume _ _ _ _ _ _ => simp [StoreEvent.isAction] at he
  | logoutBegin => simp [StoreEvent.isAction] at he
  | logoutSettle _ => simp [StoreEvent.isAction] at he

/-- C20: on a mounted store login, register and logout raise the action loading
flag before their first remote call is awaited, write nothing more until they
resume, and end with the flag false for every reply of their remote calls
(success, reported error or exception), in whatever mounted state their last
segment resumes; no step of the effect, the session load, the callback, the
timeout or `setCompany` writes the flag in between. -/
theorem action_loading_flag (s : AuthState) (hm : s.isMounted = true) :
    ((loginBegin s).loading = true ∧
      ∀ email password r, (login s email password r).1.loading = false) ∧
    ((registerBegin s).loading = true ∧
      ∀ email password companyName address phone r,
        (register s email password companyName address phone r).1.loading = false) ∧
    ((logoutBegin s).loading = true ∧ ∀ r, (logout s r).1.loading = false) ∧
    (∀ (s1 : AuthState) (calls : List RemoteCall), s1.isMounted = true →
      (∀ r, (loginSettle s1 calls r).1.loading = false) ∧
      (∀ email password companyName address phone r,
        (registerAfterCheck s1 calls email password companyName address phone r).1.loading
          = false) ∧
      (∀ r, (logoutSettle s1 calls r).1.loading = false)) ∧
    (∀ (s1 : AuthState) (e : StoreEvent), e.isAction = false →
      (step s1 e).1.loading = s1.loading) := by
  have hsettle : ∀ (s1 : AuthState) (calls : List RemoteCall), s1.isMounted = true →
      (∀ r, (loginSettle s1 calls r).1.loading = false) ∧
      (∀ email password companyName address phone r,
        (registerAfterCheck s1 calls email password companyName address phone r).1.loading
          = false) ∧
      (∀ r, (logoutSettle s1 calls r).1.loading = false) := by
    intro s1 calls h1
    refine ⟨?_, ?_, ?_⟩
    · intro r
      obtain ⟨res, h⟩ := loginSettle_eq_settle s1 calls r
      rw [h]
      exact (settle_frame s1 calls res).2.2.2.2.2.2.2 h1
    · intro email password companyName address phone r
      obtain ⟨calls2, res, h, -⟩ :=
        registerAfterCheck_eq_settle s1 calls email password companyName address phone r
      rw [h]
      exact (settle_frame s1 calls2 res).2.2.2.2.2.2.2 h1
    · intro r
      obtain ⟨res, h | h⟩ := logoutSettle_eq_settle s1 calls r
      · rw [h]
        exact (settle_frame s1 calls res).2.2.2.2.2.2.2 h1
      · rw [h]
        exact (settle_frame _ calls res).2.2.2.2.2.2.2
          (by simp [safeSetCompany, safeSetUser, h1])
  have hlb : (loginBegin s).isMounted = true := by
    simp [loginBegin, safeSetError, safeSetLoading, hm]
  have hrb : (registerBegin s).isMounted = true := by
    simp [registerBegin, safeSetError, safeSetLoading, hm]
  have hob : (logoutBegin s).isMounted = true := by
    simp [logoutBegin, safeSetLoading, hm]
  refine ⟨⟨?_, ?_⟩, ⟨?_, ?_⟩, ⟨?_, ?_⟩, hsettle, step_keeps_loading⟩
  · simp [loginBegin, safeSetError, safeSetLoading, hm]
  · intro email password r
    exact (hsettle (loginBegin s) _ hlb).1 r
  · simp [registerBegin, safeSetError, safeSetLoading, hm]
  · intro email password companyName address phone r
    exact (hsettle (registerBegin s) _ hrb).2.1 email password companyName address phone r
  · simp [logoutBegin, safeSetLoading, hm]
  · intro r
    exact (hsettle (logoutBegin s) _ hob).2.2 r

/-- Witness of C20: a login on the fresh store whose sign-in throws. -/
theorem action_loading_flag_witness :
    AuthState.initial.isMounted = true ∧
    (loginBegin AuthState.initial).loading = true ∧
    (login AuthState.initial "a@b.com" "pw" (.threw ⟨"", "Failed to fetch"⟩)).1.loading
      = false :=
  have h := action_loading_flag AuthState.initial rfl
  ⟨rfl, h.1.1, h.1.2 "a@b.com" "pw" (.threw ⟨"", "Failed to fetch"⟩)⟩

/-- C11: on a mounted store, once a login has resolved and the session-change
callback for a session carrying user `u` has run to its end, in any of the three
orders in which the end of the login and the two segments of the callback can
follow the start of the login, the store user is `u` and the exposed loading
flag is false. -/
theorem login_then_session_change (s : AuthState) (email password : String)
    (data : AuthData) (session : Option Session) (u : User) (rc : Reply Company)
    (hm : s.isMounted = true) (hu : userOf session = some u) :
    ((run s [.loginBegin email password, .loginSettle (.ok data), .authChanged session,
        .authCompanyLoaded rc]).1.user = some u ∧
      (run s [.loginBegin email password, .loginSettle (.ok data), .authChanged session,
        .authCompanyLoaded rc]).1.value.loading = false) ∧
    ((run s [.loginBegin email password, .authChanged session, .loginSettle (.ok data),
        .authCompanyLoaded rc]).1.user = some u ∧
      (run s [.loginBegin email password, .authChanged session, .loginSettle (.ok data),
        .authCompanyLoaded rc]).1.value.loading = false) ∧
    ((run s [.loginBegin email password, .authChanged session, .authCompanyLoaded rc,
        .loginSettle (.ok data)]).1.user = some u ∧
      (run s [.loginBegin email password, .authChanged session, .authCompanyLoaded rc,
        .loginSettle (.ok data)]).1.value.loading = false) := by
  rcases rc with c | ce | e
  · simp [run, step, loginBegin, loginSettle, settle, authChanged, authCompanyLoaded, hu,
      AuthState.value, safeSetUser, safeSetCompany, safeSetError, safeSetLoading,
      safeSetInitializing, hm]
  · by_cases hc : ce.code = "PGRST116" <;>
      simp [run, step, loginBegin, loginSettle, settle, authChanged, authCompanyLoaded, hu,
        hc, AuthState.value, safeSetUser, safeSetCompany, safeSetError, safeSetLoading,
        safeSetInitializing, hm]
  · simp [run, step, loginBegin, loginSettle, settle, authChanged, authCompanyLoaded, hu,
      AuthState.value, safeSetUser, safeSetCompany, safeSetError, safeSetLoading,
      safeSetInitializing, hm]

/-- Witness of C11: login on the store after its first effect run, the
notification handled before the login resolves. -/
theorem login_then_session_change_witness :
    (effectRun AuthState.initial).1.isMounted = true ∧
    userOf (some ⟨some ⟨8, "a@b.com"⟩⟩) = some ⟨8, "a@b.com"⟩ ∧
    (run (effectRun AuthState.initial).1
      [.loginBegin "a@b.com" "pw", .authChanged (some ⟨some ⟨8, "a@b.com"⟩⟩),
       .authCompanyLoaded (.failed singleRowError),
       .loginSettle (.ok ⟨some ⟨8, "a@b.com"⟩, some ⟨some ⟨8, "a@b.com"⟩⟩⟩)]).1.user
      = some ⟨8, "a@b.com"⟩ ∧
    (run (effectRun AuthState.initial).1
      [.loginBegin "a@b.com" "pw", .authChanged (some ⟨some ⟨8, "a@b.com"⟩⟩),
       .authCompanyLoaded (.failed singleRowError),
       .loginSettle (.ok ⟨some ⟨8, "a@b.com"⟩, some ⟨some ⟨8, "a@b.com"⟩⟩⟩)]).1.value.loading
      = false :=
  have h := login_then_session_change (effectRun AuthState.initial).1 "a@b.com" "pw"
    ⟨some ⟨8, "a@b.com"⟩, some ⟨some ⟨8, "a@b.com"⟩⟩⟩ (some ⟨some ⟨8, "a@b.com"⟩⟩)
    ⟨8, "a@b.com"⟩ (.failed singleRowError) rfl rfl
  ⟨rfl, rfl, h.2.2.1, h.2.2.2⟩

/-! ## Properties of the shell: hook, initializer, routes, QR code -/

/-- C26: at the failing input, a call outside any `AuthProvider`, `useAuth` does
not throw: the context falls back to the truthy default value of
`createContext`, which the hook returns; inside a provider it returns the value
of the provider. -/
theorem useAuth_outside_provider_returns_default :
    useAuth none = .ok defaultContextValue ∧
    useAuth none ≠ .error useAuthError ∧
    (∀ value : AuthValue, useAuth (some value) = .ok value) := by
  refine ⟨rfl, ?_, fun _ => rfl⟩
  simp [useAuth, useContextAuth]

/-- C23 as stated fails: the connectivity check reports an error and
`AppInitializer`, once ready, renders the full-screen error display in place of
the routed application. -/
theorem failed_check_replaces_application :
    (checkConnection InitializerState.initial
      (.ok (checkSupabaseConnection
        (Reply.failed ⟨"503", "Service unavailable"⟩ : Reply Unit)))).render
      = .errorDisplay ⟨"503", "Service unavailable"⟩ ∧
    (checkConnection InitializerState.initial
      (.ok (checkSupabaseConnection
        (Reply.failed ⟨"503", "Service unavailable"⟩ : Reply Unit)))).render
      ≠ .routedApplication := by
  constructor
  · rfl
  · decide

/-- C23 (amended): for every outcome of the connectivity check `AppInitializer`
reaches its ready state; on a successful check it renders the routed
application, and when the check reported an error or threw it renders only the
error display for that error (with its Retry button), not the routed
application. -/
theorem initializer_ready_for_every_outcome (st : InitializerState)
    (outcome : Except Err ConnectionResult) (e : Err) :
    (checkConnection st outcome).isReady = true ∧
    (∀ message, (checkConnection st outcome).render ≠ .loadingFallback message) ∧
    (checkConnection InitializerState.initial
      (.ok (checkSupabaseConnection (Reply.ok ())))).render = .routedApplication ∧
    (checkConnection InitializerState.initial
      (.ok (checkSupabaseConnection (Reply.failed e : Reply Unit)))).render = .errorDisplay e ∧
    (checkConnection InitializerState.initial
      (.ok (checkSupabaseConnection (Reply.threw e : Reply Unit)))).render = .errorDisplay e ∧
    (checkConnection InitializerState.initial (.error e)).render = .errorDisplay e := by
  have hready : (checkConnection st outcome).isReady = true := by
    rcases outcome with e1 | result
    · simp [checkConnection]
    · simp only [checkConnection]
      split <;> rfl
  refine ⟨hready, ?_, rfl, rfl, rfl, rfl⟩
  intro message
  simp only [InitializerState.render, hready]
  cases (checkConnection st outcome).connectionError <;> simp

/-- The nine declared locations resolve to their pages, `/trucks/add` to the
add-truck page rather than to the detail page of a truck named `add`. -/
theorem declared_routes_resolve :
    (resolveRoute ["login"]).map (fun r => r.element) = some .login ∧
    (resolveRoute ["register"]).map (fun r => r.element) = some .register ∧
    (resolveRoute []).map (fun r => r.element) = some .dashboard ∧
    (resolveRoute ["trucks"]).map (fun r => r.element) = some .trucks ∧
    (resolveRoute ["trucks", "17"]).map (fun r => r.element) = some .truckDetail ∧
    (resolveRoute ["trucks", "add"]).map (fun r => r.element) = some .addTruck ∧
    (resolveRoute ["scan"]).map (fun r => r.element) = some .scanQR ∧
    (resolveRoute ["company"]).map (fun r => r.element) = some .company ∧
    (resolveRoute ["nowhere"]).map (fun r => r.element) = some .notFound := by
  decide

/-- C22: at the failing input, the location `/trucks/<id>/maintenance` that the
"Add Record" link of `TruckDetail` points to, the route table has no matching
route but the catch-all: it declares no path `trucks/:id/maintenance`, and the
location resolves to the not-found page for every id. -/
theorem add_record_link_resolves_to_not_found (id : String) :
    resolveRoute (addRecordLinkTarget id) =
      some { path := [.splat], wrapper := .none, element := .notFound } ∧
    routeTable.filter (fun r => matchPath r.path (addRecordLinkTarget id)) =
      [{ path := [.splat], wrapper := .none, element := .notFound }] ∧
    (∀ r ∈ routeTable, ∀ name,
      r.path ≠ [.lit "trucks", .param name, .lit "maintenance"]) := by
  have hfilter : routeTable.filter (fun r => matchPath r.path (addRecordLinkTarget id)) =
      [{ path := [.splat], wrapper := .none, element := .notFound }] := by
    simp [routeTable, addRecordLinkTarget, matchPath, List.filter]
  refine ⟨?_, hfilter, ?_⟩
  · simp [resolveRoute, hfilter]
  · intro r hr name
    simp [routeTable] at hr
    rcases hr with h | h | h | h | h | h | h | h | h <;> subst h <;> simp

/-- C27: the markup produced by `createQRCode` does not depend on `value`: for
every size and colours and every two values it is the same text, so the codes
shown by `TruckDetail` for two trucks are identical. -/
theorem qr_markup_independent_of_value (num : ℚ → String) (size : Nat)
    (bgColor fgColor : String) (v1 v2 : String) (origin : String) (id1 id2 : Nat) :
    createQRCode num v1 size bgColor fgColor = createQRCode num v2 size bgColor fgColor ∧
    createQRCode num (truckQRValue origin id1) 192 bgColor fgColor =
      createQRCode num (truckQRValue origin id2) 192 bgColor fgColor :=
  ⟨rfl, rfl⟩

/-- C30: the Dashboard selects and orders its recent-maintenance list by the
column `maintenance_date`, whereas `AddMaintenanceRecord` stores the date of a
record in `performed_at`, the column `TruckDetail` orders by, and writes no
column `maintenance_date`. -/
theorem dashboard_orders_by_unwritten_column (f : String → String) (v : RecordValues)
    (cid tid : Nat) :
    (dashboardMaintenanceQuery cid).order = some { column := "maintenance_date", ascending := false } ∧
    (dashboardMaintenanceQuery cid).verb =
      .select "id, maintenance_date, maintenance_type, notes, trucks (id, name)" ∧
    (truckRecordsQuery tid cid).order = some { column := "performed_at", ascending := false } ∧
    "performed_at" ∈ (recordInsertQuery f v cid tid).writtenColumns ∧
    "maintenance_date" ∉ (recordInsertQuery f v cid tid).writtenColumns ∧
    (dashboardMaintenanceQuery cid).order ≠ (truckRecordsQuery tid cid).order := by
  refine ⟨rfl, rfl, rfl, ?_, ?_, ?_⟩
  · simp [Query.writtenColumns, recordInsertQuery, Column.label]
  · simp [Query.writtenColumns, recordInsertQuery, Column.label]
  · simp [dashboardMaintenanceQuery, truckRecordsQuery]

/-! ## Properties of the pages: search, missing company, login form -/

/-- C25: the list shown by `TruckList` for a search term is a sub-list of the
trucks in their original order; a truck is in it exactly when it is in the list
and its lower-cased make, model, vin or license plate contains the lower-cased
term; it is the list filtered by that condition; and for the empty term (whose
lower-casing is empty) it is the full list. -/
theorem truck_search_filter (toLowerCase : String → String) (trucks : List Truck)
    (t : String) :
    (filteredTrucks toLowerCase trucks t).Sublist trucks ∧
    (∀ truck, truck ∈ filteredTrucks toLowerCase trucks t ↔
      truck ∈ trucks ∧
        ((toLowerCase t).data <:+: (toLowerCase truck.make).data ∨
         (toLowerCase t).data <:+: (toLowerCase truck.model).data ∨
         (toLowerCase t).data <:+: (toLowerCase truck.vin).data ∨
         (toLowerCase t).data <:+: (toLowerCase truck.license_plate).data)) ∧
    filteredTrucks toLowerCase trucks t =
      trucks.filter (fun truck => decide
        ((toLowerCase t).data <:+: (toLowerCase truck.make).data ∨
         (toLowerCase t).data <:+: (toLowerCase truck.model).data ∨
         (toLowerCase t).data <:+: (toLowerCase truck.vin).data ∨
         (toLowerCase t).data <:+: (toLowerCase truck.license_plate).data)) ∧
    (toLowerCase "" = "" → filteredTrucks toLowerCase trucks "" = trucks) ∧
    (∀ p : TruckListPage, p.loading = false →
      p.render toLowerCase = .list p.error (filteredTrucks toLowerCase p.trucks p.searchTerm)) := by
  refine ⟨List.filter_sublist _, ?_, ?_, ?_, ?_⟩
  · intro truck
    simp [filteredTrucks, includes, List.mem_filter, or_assoc]
  · simp only [filteredTrucks, includes]
    congr 1
    funext truck
    simp [Bool.decide_or, Bool.or_assoc]
  · intro h
    simp [filteredTrucks, includes, h]
  · intro p hp
    simp [TruckListPage.render, hp]

/-- C29: without a company the data effects of `TruckList`, `TruckDetail`,
`AddMaintenanceRecord` and `Dashboard` return at once: they issue no request and
leave the page state, and so the loading flag, as it is; however often they run
on the freshly mounted page, it keeps rendering its loading indicator. -/
theorem pages_wait_for_company (addDays : Int → Int → Int) (now : Int)
    (toLowerCase : String → String)
    (truckId : Option Nat) (n : Nat) :
    (∀ r p, fetchTrucks none r p = (p, [])) ∧
    (∀ r p, fetchTruckData none truckId r p = (p, [])) ∧
    (∀ r p, fetchTruck none truckId r p = (p, [])) ∧
    (∀ r p, fetchDashboardData addDays now none r p = (p, [])) ∧
    (∀ r, ((fun p => (fetchTrucks none r p).1)^[n] TruckListPage.initial).render toLowerCase
      = .spinner) ∧
    (∀ r, ((fun p => (fetchTruckData none truckId r p).1)^[n] TruckDetailPage.initial).render
      = .spinner) ∧
    (∀ r, ((fun p => (fetchTruck none truckId r p).1)^[n] AddRecordPage.initial).render
      = .spinner) ∧
    (∀ r, ((fun p => (fetchDashboardData addDays now none r p).1)^[n] DashboardPage.initial).render
      = .loadingFallback "Loading dashboard data...") := by
  have h1 : ∀ r p, fetchTrucks none r p = (p, []) := fun _ _ => rfl
  have h2 : ∀ r p, fetchTruckData none truckId r p = (p, []) := fun _ _ => rfl
  have h3 : ∀ r p, fetchTruck none truckId r p = (p, []) := fun _ _ => rfl
  have h4 : ∀ r p, fetchDashboardData addDays now none r p = (p, []) := fun _ _ => rfl
  refine ⟨h1, h2, h3, h4, ?_, ?_, ?_, ?_⟩
  · intro r
    have : (fun p => (fetchTrucks none r p).1) = id := by
      funext p
      simp [h1]
    rw [this, Function.iterate_id]
    rfl
  · intro r
    have : (fun p => (fetchTruckData none truckId r p).1) = id := by
      funext p
      simp [h2]
    rw [this, Function.iterate_id]
    rfl
  · intro r
    have : (fun p => (fetchTruck none truckId r p).1) = id := by
      funext p
      simp [h3]
    rw [this, Function.iterate_id]
    rfl
  · intro r
    have : (fun p => (fetchDashboardData addDays now none r p).1) = id := by
      funext p
      simp [h4]
    rw [this, Function.iterate_id]
    rfl

/-! ## Properties of the Dashboard computations -/

/-- The day count is the ceiling of the exact quotient by a day. -/
theorem ceilDays_le_iff (ms k : Int) : ceilDays ms ≤ k ↔ ms ≤ k * 86400000 := by
  unfold ceilDays
  omega

/-- The day count is positive exactly for a positive time span. -/
theorem ceilDays_pos_iff (ms : Int) : 0 < ceilDays ms ↔ 0 < ms := by
  unfold ceilDays
  omega

/-- Candidates of the upcoming list: the entries of the trucks that have a last
maintenance date and whose day count lies between 1 and 30. -/
theorem mem_upcomingCandidates (addDays : Int → Int → Int) (now : Int)
    (trucks : List DashboardTruck) (item : UpcomingItem) :
    item ∈ upcomingCandidates addDays now trucks ↔
      ∃ truck ∈ trucks, ∃ d, truck.last_maintenance_date = some d ∧
        upcomingItem addDays now truck d = item ∧ 1 ≤ item.daysUntil ∧
        item.daysUntil ≤ 30 := by
  simp only [upcomingCandidates, List.mem_filter, List.mem_filterMap, Option.map_eq_some',
    Bool.and_eq_true, decide_eq_true_eq]
  constructor
  · rintro ⟨⟨truck, ht, d, hd, hi⟩, h1, h2⟩
    exact ⟨truck, ht, d, hd, hi, by omega, h2⟩
  · rintro ⟨truck, ht, d, hd, hi, h1, h2⟩
    exact ⟨⟨truck, ht, d, hd, hi⟩, by omega, h2⟩

/-- Entries of the upcoming list are candidates. -/
theorem upcomingMaintenance_subset (addDays : Int → Int → Int) (now : Int)
    (trucks : List DashboardTruck) (item : UpcomingItem)
    (h : item ∈ upcomingMaintenance addDays now trucks) :
    item ∈ upcomingCandidates addDays now trucks := by
  have h1 := List.mem_of_mem_take h
  exact (List.perm_insertionSort _ _).subset h1

/-- Across a daylight-saving change the calendar arithmetic decides the list: a
truck last maintained on 2024-01-15T12:00Z, seen at 2024-03-15T11:30Z where 90
calendar days are one hour short of 90 exact days, is listed at 30 days, and
would not be listed with exact days (31 days). -/
theorem upcoming_across_daylight_saving_change :
    (upcomingMaintenance (fun date n => date + n * 86400000 - 3600000) 1710502200000
      [{ id := 2, name := "T2", make := "Volvo", model := "FH", year := 2020,
         last_maintenance_date := some 1705320000000 }]).map (fun item => item.daysUntil)
      = [30] ∧
    upcomingMaintenance exactDays 1710502200000
      [{ id := 2, name := "T2", make := "Volvo", model := "FH", year := 2020,
         last_maintenance_date := some 1705320000000 }] = [] := by
  constructor <;> decide

/-- C24: for every calendar arithmetic of `Date`, every list of trucks and every
current time, each entry of the upcoming-maintenance list comes from a truck
with a last maintenance date, is due 90 calendar days after it and has a day
count, the ceiling of the exact days from now to the due date, between 1 and
30; the list is sorted by non-decreasing day count and has at most 5 entries;
followed by some remainder it is a sorted rearrangement of all qualifying
entries, the remainder being empty unless the list is full, so it consists of
the qualifying trucks with the smallest day counts. -/
theorem upcoming_list_properties (addDays : Int → Int → Int) (now : Int)
    (trucks : List DashboardTruck) :
    (∀ item ∈ upcomingMaintenance addDays now trucks,
      ∃ truck ∈ trucks, ∃ d, truck.last_maintenance_date = some d ∧
        item = upcomingItem addDays now truck d ∧ item.dueDate = addDays d 90 ∧
        item.daysUntil = ceilDays (item.dueDate - now) ∧
        1 ≤ item.daysUntil ∧ item.daysUntil ≤ 30) ∧
    (∀ item, item ∈ upcomingCandidates addDays now trucks ↔
      ∃ truck ∈ trucks, ∃ d, truck.last_maintenance_date = some d ∧
        upcomingItem addDays now truck d = item ∧ 1 ≤ item.daysUntil ∧
        item.daysUntil ≤ 30) ∧
    (upcomingMaintenance addDays now trucks).Sorted (fun a b => a.daysUntil ≤ b.daysUntil) ∧
    (upcomingMaintenance addDays now trucks).length ≤ 5 ∧
    (∃ rest,
      (upcomingMaintenance addDays now trucks ++ rest).Perm
        (upcomingCandidates addDays now trucks) ∧
      (upcomingMaintenance addDays now trucks ++ rest).Sorted
        (fun a b => a.daysUntil ≤ b.daysUntil) ∧
      (rest ≠ [] → (upcomingMaintenance addDays now trucks).length = 5)) ∧
    (∀ ms k : Int, ceilDays ms ≤ k ↔ ms ≤ k * 86400000) := by
  haveI : IsTotal UpcomingItem (fun a b => a.daysUntil ≤ b.daysUntil) :=
    ⟨fun a b => Int.le_total _ _⟩
  haveI : IsTrans UpcomingItem (fun a b => a.daysUntil ≤ b.daysUntil) :=
    ⟨fun _ _ _ h1 h2 => Int.le_trans h1 h2⟩
  have hsorted := List.sorted_insertionSort (fun a b : UpcomingItem => a.daysUntil ≤ b.daysUntil)
    (upcomingCandidates addDays now trucks)
  refine ⟨?_, mem_upcomingCandidates addDays now trucks, ?_, ?_, ?_, ceilDays_le_iff⟩
  · intro item hitem
    obtain ⟨truck, ht, d, hd, hi, h1, h2⟩ :=
      (mem_upcomingCandidates addDays now trucks item).mp
        (upcomingMaintenance_subset addDays now trucks item hitem)
    refine ⟨truck, ht, d, hd, hi.symm, ?_, ?_, h1, h2⟩
    · rw [← hi]
      rfl
    · rw [← hi]
      rfl
  · exact List.Pairwise.sublist (List.take_sublist 5 _) hsorted
  · simp only [upcomingMaintenance, List.length_take]
    omega
  · refine ⟨((upcomingCandidates addDays now trucks).insertionSort
      (fun a b => a.daysUntil ≤ b.daysUntil)).drop 5, ?_, ?_, ?_⟩
    · simp only [upcomingMaintenance, List.take_append_drop]
      exact List.perm_insertionSort _ _
    · simp only [upcomingMaintenance, List.take_append_drop]
      exact hsorted
    · intro hrest
      have hlen : 5 < ((upcomingCandidates addDays now trucks).insertionSort
          (fun a b => a.daysUntil ≤ b.daysUntil)).length := by
        by_contra hc
        exact hrest (List.drop_eq_nil_of_le (by omega))
      simp only [upcomingMaintenance, List.length_take]
      omega

/-- C28: with days of exactly 86,400,000 ms, every entry of the
upcoming-maintenance list comes from a truck that is among the trucks needing
maintenance, whose number is the counter `trucksNeedingMaintenance`: its last
maintenance date is at least 60 days before now, hence before the 30-day
threshold. -/
theorem upcoming_trucks_need_maintenance (now : Int) (trucks : List DashboardTruck)
    (c : Company) (maintenance : Option (List RecentMaintenance)) (p : DashboardPage) :
    (∀ item ∈ upcomingMaintenance exactDays now trucks,
      ∃ truck ∈ needMaintenance exactDays now trucks, ∃ d,
        truck.last_maintenance_date = some d ∧
        item = upcomingItem exactDays now truck d ∧ d + 60 * 86400000 ≤ now ∧
        d < now - 30 * 86400000) ∧
    (fetchDashboardData exactDays now (some c) ⟨.ok (some trucks), .ok maintenance⟩
        p).1.stats.trucksNeedingMaintenance
      = (needMaintenance exactDays now trucks).length ∧
    (fetchDashboardData exactDays now (some c) ⟨.ok (some trucks), .ok maintenance⟩
        p).1.upcomingMaintenance
      = upcomingMaintenance exactDays now trucks := by
  refine ⟨?_, rfl, rfl⟩
  intro item hitem
  obtain ⟨truck, ht, d, hd, hi, h1, h2⟩ :=
    (mem_upcomingCandidates exactDays now trucks item).mp
      (upcomingMaintenance_subset exactDays now trucks item hitem)
  have hday : msPerDay = 86400000 := by decide
  have hdue : exactDays d 90 = d + 90 * 86400000 := by
    unfold exactDays
    rw [hday]
  have hago : exactDays now (-30) = now - 30 * 86400000 := by
    unfold exactDays
    rw [hday]
    omega
  have hdays : ceilDays (d + 90 * 86400000 - now) ≤ 30 := by
    have : item.daysUntil = ceilDays (exactDays d 90 - now) := by
      rw [← hi]
      rfl
    rw [← hdue, ← this]
    exact h2
  have hle := (ceilDays_le_iff _ _).mp hdays
  have h60 : d + 60 * 86400000 ≤ now := by omega
  refine ⟨truck, ?_, d, hd, hi.symm, h60, by omega⟩
  simp only [needMaintenance, List.mem_filter]
  refine ⟨ht, ?_⟩
  rw [hd]
  simp only [decide_eq_true_eq, hago]
  omega

/-! ## Properties of the login form -/

/-- Within `handleSubmit` of `Login` a failed `login` asks for the banner text
`Failed to sign in. ...` and no navigation, a successful one navigates to `/`
and asks for no banner. -/
theorem login_handleSubmitSettle_cases (e : Err) (data : AuthData) (p : LoginPage) :
    ((Login.handleSubmitSettle (.error e)).1 p).error = signInFailureText e ∧
    "Failed to sign in".data <+: (signInFailureText e).data ∧
    (Login.handleSubmitSettle (.error e)).2 = none ∧
    (Login.handleSubmitSettle (.ok data)).2 = some "/" ∧
    ((Login.handleSubmitSettle (.ok data)).1 p) = p := by
  refine ⟨rfl, ?_, rfl, rfl, rfl⟩
  refine ⟨(". " ++ (if e.message = "" then "Please check your credentials."
    else e.message)).data, ?_⟩
  simp only [signInFailureText, String.data_append]
  rw [← List.append_assoc]
  rfl

/-- A submission on a mounted, settled, signed-out store navigates exactly when
the sign-in succeeded, and after a failed sign-in the form shown at `/login` is
a fresh instance without an error banner: the instance that asked for the
banner was unmounted while `AppRouter` showed its loading placeholder. -/
theorem submitLoginForm_on_settled_store (s : AuthState) (email password : String)
    (r : Reply AuthData) (hm : s.isMounted = true) (hl : s.loading = false)
    (hi : s.initializing = false) (hu : s.user = none) :
    ((submitLoginForm s (renderAtLogin s.value LoginTree.empty) email password r).2.2
        = some "/" ↔ r.succeeded = true) ∧
    (r.succeeded = false →
      screenAtLogin
        (submitLoginForm s (renderAtLogin s.value LoginTree.empty) email password r).1.value
        (submitLoginForm s (renderAtLogin s.value LoginTree.empty) email password r).2.1
        = .loginForm "" "") ∧
    screenAtLogin (loginBegin s).value
      (renderAtLogin (loginBegin s).value (renderAtLogin s.value LoginTree.empty))
      = .loadingApplication := by
  rcases r with d | e | e <;>
    simp [submitLoginForm, renderAtLogin, screenAtLogin, AppRouter, PublicRoute,
      AuthState.value, LoginTree.empty, LoginTree.update, Login.handleSubmitBegin,
      Login.handleSubmitSettle, LoginPage.initial, loginBegin, loginSettle, settle,
      safeSetError, safeSetLoading, Reply.succeeded, hm, hl, hi, hu]

/-- C21: at the failing input, a submission with wrong credentials on a mounted,
settled, signed-out store, the login call fails and no navigation is performed,
but the form shown at `/login` afterwards has no error banner, although
`handleSubmit` asked for the text `Failed to sign in. Invalid login
credentials`: while the sign-in was pending `AppRouter` replaced the routes by
its loading placeholder, which unmounted the `Login` instance. -/
theorem failed_login_shows_no_banner :
    (submitLoginForm { AuthState.initial with initializing := false }
      (renderAtLogin ({ AuthState.initial with initializing := false } : AuthState).value
        LoginTree.empty)
      "a@b.com" "wrong" (.failed ⟨"invalid_credentials", "Invalid login credentials"⟩)).2.2
      = none ∧
    screenAtLogin
      (submitLoginForm { AuthState.initial with initializing := false }
        (renderAtLogin ({ AuthState.initial with initializing := false } : AuthState).value
          LoginTree.empty)
        "a@b.com" "wrong"
        (.failed ⟨"invalid_credentials", "Invalid login credentials"⟩)).1.value
      (submitLoginForm { AuthState.initial with initializing := false }
        (renderAtLogin ({ AuthState.initial with initializing := false } : AuthState).value
          LoginTree.empty)
        "a@b.com" "wrong"
        (.failed ⟨"invalid_credentials", "Invalid login credentials"⟩)).2.1
      = .loginForm "" "" ∧
    ((Login.handleSubmitSettle
        (.error ⟨"invalid_credentials", "Invalid login credentials"⟩)).1
      LoginPage.initial).error = "Failed to sign in. Invalid login credentials" ∧
    screenAtLogin
      (loginBegin { AuthState.initial with initializing := false }).value
      (renderAtLogin (loginBegin { AuthState.initial with initializing := false }).value
        (renderAtLogin ({ AuthState.initial with initializing := false } : AuthState).value
          LoginTree.empty))
      = .loadingApplication := by
  refine ⟨rfl, rfl, ?_, rfl⟩
  decide

end FleetApp
